import Mathlib

/-!
# Verification of the Timeline converter (`src/Timeline_Convertor_2.py`)

A shallow embedding of the converter that turns Google-Maps Timeline JSON
exports (three schemas: ios / standard / semantic) into a normalized model of
visits and activities, and re-encodes that model as GeoJSON and KML.

Modelling conventions:
* JSON values are the inductive `TC.Json`; Python `None` is `Json.null`.
* Python numbers are modelled as exact rationals (`ℚ`); binary64 rounding of
  Python floats is outside the model, arithmetic (division by `1e7`, `1000`)
  is exact.
* Fallible Python code is modelled in `Except PyErr`; an uncaught Python
  exception is `Except.error`.
* Python truthiness (`if x:`) is `Json.truthy`.
* `float()` is modelled for decimal notation with optional sign, fraction and
  exponent (Python additionally accepts `inf`/`nan`/underscore separators,
  none of which can appear in the claims' inputs).
* `\d` and `\s` of the `re` pattern and `str.strip` are modelled over ASCII.
-/

namespace TC

/-- JSON values as produced by Python's `json.load`.  Objects are modelled as
association lists; the source documents relevant to the claims carry no
duplicate keys. -/
inductive Json where
  | null
  | bool (b : Bool)
  | num (q : ℚ)
  | str (s : String)
  | arr (items : List Json)
  | obj (fields : List (String × Json))

/-- The Python exceptions the converter can raise. -/
inductive PyErr where
  | typeError
  | attributeError
  | keyError
  | indexError
deriving DecidableEq

/-- First binding of a key in an association list (Python dict lookup). -/
def jLookup : List (String × Json) → String → Option Json
  | [], _ => none
  | (k, v) :: rest, key => if k = key then some v else jLookup rest key

/-- Python truthiness of a JSON value (`bool(x)`). -/
def Json.truthy : Json → Bool
  | .null => false
  | .bool b => b
  | .num q => decide (q ≠ 0)
  | .str s => !s.data.isEmpty
  | .arr items => !items.isEmpty
  | .obj fields => !fields.isEmpty

/-- Python `x.get(k, dflt)`: attribute error unless `x` is a dict. -/
def Json.pyGet (j : Json) (k : String) (dflt : Json) : Except PyErr Json :=
  match j with
  | .obj kvs => .ok ((jLookup kvs k).getD dflt)
  | _ => .error .attributeError

/-- Python subscript `x[k]` with a string key. -/
def Json.idx (j : Json) (k : String) : Except PyErr Json :=
  match j with
  | .obj kvs =>
    match jLookup kvs k with
    | some v => .ok v
    | none => .error .keyError
  | _ => .error .typeError

/-- Does the character list `pat` stand at the head of `hay`? -/
def charLeadMatch : List Char → List Char → Bool
  | [], _ => true
  | _ :: _, [] => false
  | p :: ps, h :: hs => p == h && charLeadMatch ps hs

/-- Substring search (`pat in hay` for Python strings). -/
def charContains : List Char → List Char → Bool
  | [], pat => pat.isEmpty
  | c :: rest, pat => charLeadMatch pat (c :: rest) || charContains rest pat

/-- Python `k in x` for a string key `k`: key membership for dicts, substring
search for strings, element equality for lists, `TypeError` otherwise. -/
def Json.hasStr (j : Json) (k : String) : Except PyErr Bool :=
  match j with
  | .obj kvs => .ok ((jLookup kvs k).isSome)
  | .str s => .ok (charContains s.data k.data)
  | .arr xs => .ok (xs.any fun e => match e with | .str s2 => s2 == k | _ => false)
  | _ => .error .typeError

/-- Python iteration `for x in j`: lists yield elements, strings yield their
characters, dicts yield their keys, anything else raises `TypeError`. -/
def Json.pyIter : Json → Except PyErr (List Json)
  | .arr xs => .ok xs
  | .str s => .ok (s.data.map fun c => .str ⟨[c]⟩)
  | .obj kvs => .ok (kvs.map fun kv => .str kv.1)
  | _ => .error .typeError

/-- Python subscript `x[0]`. -/
def Json.idx0 : Json → Except PyErr Json
  | .arr (x :: _) => .ok x
  | .arr [] => .error .indexError
  | .str s =>
    match s.data with
    | c :: _ => .ok (.str ⟨[c]⟩)
    | [] => .error .indexError
  | .obj _ => .error .keyError
  | _ => .error .typeError

/-- Python `x / d` for a rational divisor `d` (booleans count as 0/1,
anything non-numeric raises `TypeError`). -/
def pyDiv (j : Json) (d : ℚ) : Except PyErr ℚ :=
  match j with
  | .num q => .ok (q / d)
  | .bool b => .ok ((if b then 1 else 0) / d)
  | _ => .error .typeError

/-- ASCII whitespace (model of `\s` / `str.strip`). -/
def isSpaceChar (c : Char) : Bool :=
  c == ' ' || c == '\t' || c == '\n' || c == '\r' || c == '\x0b' || c == '\x0c'

/-- ASCII decimal digit (model of `\d`). -/
def isDigitChar (c : Char) : Bool :=
  48 ≤ c.toNat && c.toNat ≤ 57

/-- Value of a digit run. -/
def digitsToNat (cs : List Char) : Nat :=
  cs.foldl (fun acc c => 10 * acc + (c.toNat - 48)) 0

/-- The pieces of a decimal `float()` literal: sign, integer-part digits,
fraction digits, exponent.  Kept at character level so that concrete parses
evaluate inside the kernel; `floatVal` turns the pieces into the rational the
Python float denotes. -/
structure FloatTxt where
  neg : Bool
  ip : List Char
  fp : List Char
  ex : Int
deriving DecidableEq

/-- The rational value of a parsed float literal. -/
def floatVal (f : FloatTxt) : ℚ :=
  (if f.neg then -1 else 1) *
    ((digitsToNat f.ip : ℚ) + (digitsToNat f.fp : ℚ) / (10 : ℚ) ^ f.fp.length) *
    (10 : ℚ) ^ f.ex

/-- Optional leading sign; returns (negative?, rest). -/
def parseSignChars : List Char → Bool × List Char
  | '-' :: rest => (true, rest)
  | '+' :: rest => (false, rest)
  | cs => (false, cs)

/-- Decimal mantissa `digits [. digits]` or `. digits`; returns the digit
runs and the remaining input. -/
def parseMantissa (cs : List Char) : Option ((List Char × List Char) × List Char) :=
  let intPart := cs.takeWhile isDigitChar
  let rest1 := cs.dropWhile isDigitChar
  match rest1 with
  | '.' :: rest2 =>
    let fracPart := rest2.takeWhile isDigitChar
    let rest3 := rest2.dropWhile isDigitChar
    if intPart.isEmpty && fracPart.isEmpty then none
    else some ((intPart, fracPart), rest3)
  | _ =>
    if intPart.isEmpty then none
    else some ((intPart, []), rest1)

/-- Optional exponent `e±digits`. -/
def parseExpPart : List Char → Option (Int × List Char)
  | [] => some (0, [])
  | c :: rest =>
    if c == 'e' || c == 'E' then
      let (neg, r2) := parseSignChars rest
      let ds := r2.takeWhile isDigitChar
      let r3 := r2.dropWhile isDigitChar
      if ds.isEmpty then none
      else some ((if neg then -(digitsToNat ds : Int) else (digitsToNat ds : Int)), r3)
    else some (0, c :: rest)

/-- Character-level part of Python `float(s)`: decimal notation, whole string
consumed, surrounding whitespace stripped. -/
def floatTxt? (s : String) : Option FloatTxt :=
  let cs := ((s.data.dropWhile isSpaceChar).reverse.dropWhile isSpaceChar).reverse
  let (neg, r1) := parseSignChars cs
  match parseMantissa r1 with
  | none => none
  | some ((ip, fp), r2) =>
    match parseExpPart r2 with
    | none => none
    | some (e, r3) =>
      if r3.isEmpty then some ⟨neg, ip, fp, e⟩
      else none

/-- Model of Python `float(s)` on decimal notation. -/
def pyFloat? (s : String) : Option ℚ :=
  (floatTxt? s).map floatVal

/-- Python `s.split(',')`. -/
def charSplitOnComma : List Char → List (List Char)
  | [] => [[]]
  | ',' :: rest => [] :: charSplitOnComma rest
  | c :: rest =>
    match charSplitOnComma rest with
    | [] => [[c]]
    | p :: ps => (c :: p) :: ps

/-- Character-level part of `parse_geo_string`: recognizes `'geo:lat,lng'`
and yields the two float literals. -/
def geoTxt (j : Json) : Option (FloatTxt × FloatTxt) :=
  match j with
  | .str s =>
    if charLeadMatch "geo:".data s.data then
      match charSplitOnComma (s.data.drop 4) with
      | [a, b] =>
        match floatTxt? ⟨a⟩, floatTxt? ⟨b⟩ with
        | some la, some lb => some (la, lb)
        | _, _ => none
      | _ => none
    else none
  | _ => none

/-- `parse_geo_string` from the source: parses `'geo:lat,lng'` strings;
returns `None` for anything else (non-strings included). -/
def parse_geo_string (j : Json) : Option (ℚ × ℚ) :=
  (geoTxt j).map fun p => (floatVal p.1, floatVal p.2)

/-! Backtracking matcher for the source's regular expression
`(-?\d+\.?\d*)\s*°?,?\s*(-?\d+\.?\d*)` used by `parse_latlng_string`.
Candidates are enumerated in the order Python's `re` backtracks: greedy
quantifiers longest-first, optional pieces consume-first, earliest start
position wins. -/

/-- Splits `(taken, rest)` where `taken` is a run of `p`-characters, longest
first down to the empty run. -/
def spanSplits (p : Char → Bool) (cs : List Char) : List (List Char × List Char) :=
  let m := (cs.takeWhile p).length
  (List.range (m + 1)).reverse.map fun n => (cs.take n, cs.drop n)

/-- Like `spanSplits` but the run must be nonempty (`+` quantifier). -/
def spanSplits1 (p : Char → Bool) (cs : List Char) : List (List Char × List Char) :=
  (spanSplits p cs).dropLast

/-- Optional single character (`c?`), consume-first. -/
def optSplit (c : Char) (cs : List Char) : List (List Char × List Char) :=
  match cs with
  | c2 :: rest => if c2 == c then [([c2], rest), ([], cs)] else [([], cs)]
  | [] => [([], [])]

/-- Candidates for one number group `-?\d+\.?\d*`, in backtracking order. -/
def numCands (cs : List Char) : List (List Char × List Char) :=
  (optSplit '-' cs).flatMap fun s1 =>
    (spanSplits1 isDigitChar s1.2).flatMap fun s2 =>
      (optSplit '.' s2.2).flatMap fun s3 =>
        (spanSplits isDigitChar s3.2).map fun s4 =>
          (s1.1 ++ s2.1 ++ s3.1 ++ s4.1, s4.2)

/-- Attempt to match the full pattern at the current position, returning the
two captured groups.  The middle piece `\s*°?,?\s*` is deterministic because
its character classes are disjoint from a group's first character. -/
def latlngMatchAt (cs : List Char) : Option (List Char × List Char) :=
  (numCands cs).findSome? fun g1 =>
    let r2 := g1.2.dropWhile isSpaceChar
    let r3 := match r2 with | '°' :: t => t | _ => r2
    let r4 := match r3 with | ',' :: t => t | _ => r3
    let r5 := r4.dropWhile isSpaceChar
    (numCands r5).findSome? fun g2 => some (g1.1, g2.1)

/-- `re.search`: first position (leftmost) at which the pattern matches. -/
def latlngSearch : List Char → Option (List Char × List Char)
  | [] => latlngMatchAt []
  | c :: rest =>
    match latlngMatchAt (c :: rest) with
    | some r => some r
    | none => latlngSearch rest

/-- Character-level part of `parse_latlng_string`: falsy inputs give `None`;
truthy non-strings raise `TypeError` inside `re.search`; on a match both
captured groups are run through `float()`. -/
def latlngTxt (j : Json) : Except PyErr (Option (FloatTxt × FloatTxt)) :=
  if !j.truthy then .ok none
  else
    match j with
    | .str s =>
      .ok (match latlngSearch s.data with
        | some (g1, g2) =>
          match floatTxt? ⟨g1⟩, floatTxt? ⟨g2⟩ with
          | some a, some b => some (a, b)
          | _, _ => none
        | none => none)
    | _ => .error .typeError

/-- `parse_latlng_string` from the source: parses `'12.345°, 67.890°'`-style
strings (semantic schema). -/
def parse_latlng_string (j : Json) : Except PyErr (Option (ℚ × ℚ)) :=
  (latlngTxt j).map (Option.map fun p => (floatVal p.1, floatVal p.2))

/-! ## The normalized model: visits and activities -/

/-- A Visit entity, mirroring the dict the three parsers append to
`self.visits`.  Latitude/longitude are always Python floats there; the other
fields hold whatever JSON value the source supplied (`Json.null` for Python
`None`). -/
structure Visit where
  name : Json
  lat : ℚ
  lng : ℚ
  start_time : Json
  end_time : Json
  place_id : Json
  semantic_type : Json

/-- An Activity entity, mirroring the dict appended to `self.activities`.
A path point is a pair of Python values: E7 points and parsed strings yield
floats, but a plain `{lat,lng}` point of the standard schema is stored as-is. -/
structure Activity where
  type : Json
  start_time : Json
  end_time : Json
  distance : Json
  path : List (Json × Json)

/-- The parser state: the `(visits, activities)` accumulators. -/
abbrev Model := List Visit × List Activity

/-- Except-chaining; a plain function so concrete runs unfold by `simp`. -/
def bindE (x : Except PyErr α) (f : α → Except PyErr β) : Except PyErr β :=
  match x with
  | .error e => .error e
  | .ok a => f a

@[simp] theorem bindE_ok (a : α) (f : α → Except PyErr β) : bindE (.ok a) f = f a := rfl

@[simp] theorem bindE_error (e : PyErr) (f : α → Except PyErr β) :
    bindE (.error e) f = .error e := rfl

/-- A Python `for` loop threading state, aborting at the first exception. -/
def exFold (f : α → β → Except PyErr α) : α → List β → Except PyErr α
  | st, [] => .ok st
  | st, x :: xs =>
    match f st x with
    | .error e => .error e
    | .ok st2 => exFold f st2 xs

/-! ## `_parse_ios_format` -/

/-- One iteration of the `_parse_ios_format` loop body. -/
def iosStep (st : Model) (item : Json) : Except PyErr Model :=
  if !item.truthy then .ok st
  else
    bindE (item.hasStr "startTime") fun hasS =>
    if !hasS then .ok st else
    bindE (item.hasStr "endTime") fun hasE =>
    if !hasE then .ok st else
    bindE (item.hasStr "visit") fun hasV =>
    if hasV then
      bindE (item.idx "visit") fun visit =>
      bindE (visit.pyGet "topCandidate" (.obj [])) fun candidate =>
      bindE (candidate.pyGet "placeLocation" (.str "")) fun ploc =>
      match parse_geo_string ploc with
      | none => .ok st
      | some c =>
        bindE (candidate.pyGet "name" (.str "Unknown Location")) fun name =>
        bindE (item.idx "startTime") fun stT =>
        bindE (item.idx "endTime") fun enT =>
        bindE (candidate.pyGet "placeID" .null) fun pid =>
        bindE (candidate.pyGet "semanticType" .null) fun sem =>
        .ok (st.1 ++ [⟨name, c.1, c.2, stT, enT, pid, sem⟩], st.2)
    else
      bindE (item.hasStr "activity") fun hasA =>
      if hasA then
        bindE (item.idx "activity") fun act =>
        bindE (act.pyGet "topCandidate" (.obj [])) fun candidate =>
        bindE (act.pyGet "start" (.str "")) fun sj =>
        bindE (act.pyGet "end" (.str "")) fun ej =>
        let sc := parse_geo_string sj
        let ec := parse_geo_string ej
        let path1 : List (Json × Json) :=
          match sc with
          | some c => [(.num c.1, .num c.2)]
          | none => []
        let path2 : List (Json × Json) :=
          match ec with
          | some c => if ec = sc then path1 else path1 ++ [(.num c.1, .num c.2)]
          | none => path1
        if path2.isEmpty then .ok st
        else
          bindE (candidate.pyGet "type" (.str "UNKNOWN")) fun ty =>
          bindE (item.idx "startTime") fun stT =>
          bindE (item.idx "endTime") fun enT =>
          bindE (act.pyGet "distanceMeters" (.num 0)) fun dist =>
          .ok (st.1, st.2 ++ [⟨ty, stT, enT, dist, path2⟩])
      else .ok st

/-- `_parse_ios_format`: the root is already known to be a list. -/
def parse_ios_format (items : List Json) : Except PyErr Model :=
  exFold iosStep ([], []) items

/-! ## `_parse_standard_format` -/

/-- The semantic-type normalization shared by the standard and semantic
parsers: a home/work indicator forces the name to `"Home"`/`"Work"`. -/
def nameNorm (sem name0 : Json) : Json :=
  match sem with
  | .str "TYPE_HOME" | .str "Home" => .str "Home"
  | .str "TYPE_WORK" | .str "Work" => .str "Work"
  | _ => name0

/-- The `placeVisit` branch of the standard parser. -/
def stdPlaceVisit (pv : Json) (st : Model) : Except PyErr Model :=
  bindE (pv.pyGet "location" (.obj [])) fun loc =>
  bindE (pv.pyGet "duration" (.obj [])) fun duration =>
  bindE (loc.pyGet "latitudeE7" (.num 0)) fun latj =>
  bindE (pyDiv latj 10000000) fun lat =>
  bindE (loc.pyGet "longitudeE7" (.num 0)) fun lngj =>
  bindE (pyDiv lngj 10000000) fun lng =>
  if lat ≠ 0 ∧ lng ≠ 0 then
    bindE (loc.pyGet "name" (.str "Unknown Location")) fun name0 =>
    bindE (loc.pyGet "semanticType" (.str "")) fun sem =>
    bindE (duration.pyGet "startTimestamp" .null) fun stT =>
    bindE (duration.pyGet "endTimestamp" .null) fun enT =>
    bindE (loc.pyGet "placeId" .null) fun pid =>
    .ok (st.1 ++ [⟨nameNorm sem name0, lat, lng, stT, enT, pid, sem⟩], st.2)
  else .ok st

/-- The `or`-chain choosing the primary path source of an activitySegment. -/
def stdPathData (seg : Json) : Except PyErr Json :=
  bindE (seg.pyGet "waypointPath" (.obj [])) fun wp =>
  bindE (wp.pyGet "waypoints" .null) fun a =>
  if a.truthy then .ok a else
  bindE (seg.pyGet "simplifiedRawPath" (.obj [])) fun srp =>
  bindE (srp.pyGet "points" .null) fun b =>
  if b.truthy then .ok b else
  bindE (seg.pyGet "timelinePath" (.obj [])) fun tp =>
  bindE (tp.pyGet "points" .null) fun c =>
  if c.truthy then .ok c else .ok (.arr [])

/-- One iteration of the standard parser's path-point loop: a point is read
as `latE7/lngE7` scaled by `1e7` when those keys exist, else as plain
`lat`/`lng`; it is kept when both components are truthy. -/
def stdPoint (st : List (Json × Json)) (pt : Json) : Except PyErr (List (Json × Json)) :=
  bindE (pt.hasStr "latE7") fun hasLatE7 =>
  bindE (if hasLatE7 then
           bindE (pt.pyGet "latE7" (.num 0)) fun v =>
           bindE (pyDiv v 10000000) fun q => .ok (Json.num q)
         else pt.pyGet "lat" (.num 0)) fun lat =>
  bindE (pt.hasStr "lngE7") fun hasLngE7 =>
  bindE (if hasLngE7 then
           bindE (pt.pyGet "lngE7" (.num 0)) fun v =>
           bindE (pyDiv v 10000000) fun q => .ok (Json.num q)
         else pt.pyGet "lng" (.num 0)) fun lng =>
  .ok (if lat.truthy && lng.truthy then st ++ [(lat, lng)] else st)

/-- The standard parser's fallback to the segment's start/end locations when
fewer than two primary path points were recovered. -/
def stdFallback (seg : Json) (path0 : List (Json × Json)) :
    Except PyErr (List (Json × Json)) :=
  if path0.length < 2 then
    bindE (seg.pyGet "startLocation" (.obj [])) fun sl =>
    bindE (seg.pyGet "endLocation" (.obj [])) fun el =>
    bindE (sl.pyGet "latitudeE7" (.num 0)) fun v1 =>
    bindE (pyDiv v1 10000000) fun slat =>
    bindE (sl.pyGet "longitudeE7" (.num 0)) fun v2 =>
    bindE (pyDiv v2 10000000) fun slng =>
    bindE (el.pyGet "latitudeE7" (.num 0)) fun v3 =>
    bindE (pyDiv v3 10000000) fun elat =>
    bindE (el.pyGet "longitudeE7" (.num 0)) fun v4 =>
    bindE (pyDiv v4 10000000) fun elng =>
    let p1 : List (Json × Json) :=
      if slat ≠ 0 ∧ slng ≠ 0 then [(.num slat, .num slng)] else path0
    let p2 : List (Json × Json) :=
      if elat ≠ 0 ∧ elng ≠ 0 then p1 ++ [(.num elat, .num elng)] else p1
    .ok p2
  else .ok path0

/-- Activity-type resolution of the standard schema:
`activityType`, else first entry of `activities`, else `"UNKNOWN"`. -/
def stdActivityType (seg : Json) : Except PyErr Json :=
  bindE (seg.pyGet "activityType" .null) fun a =>
  if a.truthy then .ok a else
  bindE (seg.pyGet "activities" .null) fun acts =>
  bindE (if acts.truthy then
           bindE (seg.pyGet "activities" (.arr [.obj []])) fun acts2 =>
           bindE acts2.idx0 fun first =>
           first.pyGet "activityType" .null
         else .ok .null) fun t =>
  if t.truthy then .ok t else .ok (.str "UNKNOWN")

/-- The `activitySegment` branch of the standard parser. -/
def stdActivitySegment (seg : Json) (st : Model) : Except PyErr Model :=
  bindE (seg.pyGet "duration" (.obj [])) fun duration =>
  bindE (stdPathData seg) fun pd =>
  bindE pd.pyIter fun pts =>
  bindE (exFold stdPoint [] pts) fun path0 =>
  bindE (stdFallback seg path0) fun path =>
  if path.isEmpty then .ok st
  else
    bindE (stdActivityType seg) fun ty =>
    bindE (duration.pyGet "startTimestamp" .null) fun stT =>
    bindE (duration.pyGet "endTimestamp" .null) fun enT =>
    bindE (seg.pyGet "distance" (.num 0)) fun dist =>
    .ok (st.1, st.2 ++ [⟨ty, stT, enT, dist, path⟩])

/-- One iteration of the `_parse_standard_format` loop body. -/
def stdStep (st : Model) (item : Json) : Except PyErr Model :=
  bindE (item.hasStr "placeVisit") fun hasPV =>
  if hasPV then bindE (item.idx "placeVisit") fun pv => stdPlaceVisit pv st
  else
    bindE (item.hasStr "activitySegment") fun hasAS =>
    if hasAS then bindE (item.idx "activitySegment") fun seg => stdActivitySegment seg st
    else .ok st

/-- `_parse_standard_format` over the whole (dict) root. -/
def parse_standard_format (data : Json) : Except PyErr Model :=
  bindE (data.pyGet "timelineObjects" (.arr [])) fun tl =>
  bindE tl.pyIter fun items =>
  exFold stdStep ([], []) items

/-! ## `_parse_semantic_format` -/

/-- The `visit` branch of the semantic parser (`stT`/`enT` are the segment's
already-read `startTime`/`endTime`). -/
def semVisit (stT enT visit : Json) (st : Model) : Except PyErr Model :=
  bindE (visit.pyGet "topCandidate" (.obj [])) fun candidate =>
  bindE (candidate.pyGet "placeLocation" (.obj [])) fun ploc =>
  bindE (ploc.pyGet "latLng" (.str "")) fun ll =>
  bindE (parse_latlng_string ll) fun copt =>
  match copt with
  | none => .ok st
  | some c =>
    bindE (candidate.pyGet "name" (.str "Unknown Location")) fun name0 =>
    bindE (candidate.pyGet "semanticType" (.str "")) fun sem =>
    bindE (candidate.pyGet "placeId" .null) fun pid =>
    .ok (st.1 ++ [⟨nameNorm sem name0, c.1, c.2, stT, enT, pid, sem⟩], st.2)

/-- One iteration of the semantic parser's `timelinePath` loop. -/
def semPathPoint (st : List (Json × Json)) (pt : Json) :
    Except PyErr (List (Json × Json)) :=
  bindE (pt.pyGet "point" (.str "")) fun pj =>
  bindE (parse_latlng_string pj) fun c =>
  .ok (match c with
    | some cc => st ++ [(.num cc.1, .num cc.2)]
    | none => st)

/-- The `activity` branch of the semantic parser. -/
def semActivity (stT enT act seg : Json) (st : Model) : Except PyErr Model :=
  bindE (act.pyGet "topCandidate" (.obj [])) fun candidate =>
  bindE (act.pyGet "start" (.obj [])) fun sObj =>
  bindE (sObj.pyGet "latLng" (.str "")) fun sLL =>
  bindE (parse_latlng_string sLL) fun sc =>
  bindE (act.pyGet "end" (.obj [])) fun eObj =>
  bindE (eObj.pyGet "latLng" (.str "")) fun eLL =>
  bindE (parse_latlng_string eLL) fun ec =>
  bindE (seg.pyGet "timelinePath" (.arr [])) fun tp =>
  bindE tp.pyIter fun pts =>
  bindE (exFold semPathPoint [] pts) fun path0 =>
  let path : List (Json × Json) :=
    if path0.length < 2 then
      let p1 : List (Json × Json) :=
        match sc with
        | some c => [(.num c.1, .num c.2)]
        | none => path0
      match ec with
      | some c => p1 ++ [(.num c.1, .num c.2)]
      | none => p1
    else path0
  if path.isEmpty then .ok st
  else
    bindE (candidate.pyGet "type" (.str "UNKNOWN")) fun ty =>
    bindE (act.pyGet "distanceMeters" (.num 0)) fun dist =>
    .ok (st.1, st.2 ++ [⟨ty, stT, enT, dist, path⟩])

/-- One iteration of the `_parse_semantic_format` loop body. -/
def semStep (st : Model) (seg : Json) : Except PyErr Model :=
  bindE (seg.pyGet "startTime" .null) fun stT =>
  bindE (seg.pyGet "endTime" .null) fun enT =>
  bindE (seg.hasStr "visit") fun hasV =>
  if hasV then bindE (seg.idx "visit") fun v => semVisit stT enT v st
  else
    bindE (seg.hasStr "activity") fun hasA =>
    if hasA then bindE (seg.idx "activity") fun a => semActivity stT enT a seg st
    else .ok st

/-- `_parse_semantic_format` over the whole (dict) root. -/
def parse_semantic_format (data : Json) : Except PyErr Model :=
  bindE (data.pyGet "semanticSegments" (.arr [])) fun ss =>
  bindE ss.pyIter fun segs =>
  exFold semStep ([], []) segs

/-! ## Format detection (`TimelineConverter.load` after JSON parsing) -/

/-- The three recognized schemas. -/
inductive Fmt where
  | ios
  | standard
  | semantic
deriving DecidableEq

/-- `TimelineConverter.load` from the point where the JSON document has been
parsed: format detection and dispatch to one parser.  `.ok none` models the
`UnrecognizedFormat` path (the method prints the error and returns `False`,
emitting no entities); `.error` models an uncaught Python exception. -/
def load (root : Json) : Except PyErr (Option (Fmt × Model)) :=
  match root with
  | .arr items =>
    bindE (parse_ios_format items) fun m => .ok (some (.ios, m))
  | _ =>
    bindE (root.hasStr "timelineObjects") fun hasTL =>
    if hasTL then bindE (parse_standard_format root) fun m => .ok (some (.standard, m))
    else
      bindE (root.hasStr "semanticSegments") fun hasSS =>
      if hasSS then bindE (parse_semantic_format root) fun m => .ok (some (.semantic, m))
      else .ok none

/-! ## Activity vocabulary (`get_activity_color`, `format_activity_type`);
`str.upper`/`str.title` modelled over ASCII letters, which covers every token
of the two tables. -/

/-- ASCII uppercase of one character. -/
def upperChar (c : Char) : Char :=
  if 97 ≤ c.toNat && c.toNat ≤ 122 then Char.ofNat (c.toNat - 32) else c

/-- ASCII lowercase of one character. -/
def lowerChar (c : Char) : Char :=
  if 65 ≤ c.toNat && c.toNat ≤ 90 then Char.ofNat (c.toNat + 32) else c

/-- ASCII letter test. -/
def isAlphaChar (c : Char) : Bool :=
  (65 ≤ c.toNat && c.toNat ≤ 90) || (97 ≤ c.toNat && c.toNat ≤ 122)

/-- `s.upper()`. -/
def pyUpper (s : String) : String :=
  ⟨s.data.map upperChar⟩

/-- `s.replace('_', ' ')`. -/
def pyReplUnderscore (s : String) : String :=
  ⟨s.data.map fun c => if c == '_' then ' ' else c⟩

/-- `s.title()` on its character list: a letter is uppercased after a
non-letter and lowercased after a letter. -/
def titleChars : List Char → Bool → List Char
  | [], _ => []
  | c :: rest, prevAlpha =>
    (if isAlphaChar c then (if prevAlpha then lowerChar c else upperChar c) else c) ::
      titleChars rest (isAlphaChar c)

/-- `s.title()`. -/
def pyTitle (s : String) : String :=
  ⟨titleChars s.data false⟩

/-- Generic association-list lookup (first binding wins). -/
def aLookup : List (String × α) → String → Option α
  | [], _ => none
  | (k, v) :: rest, key => if k = key then some v else aLookup rest key

/-- The color table of `get_activity_color`. -/
def activityColors : List (String × String) :=
  [("DRIVING", "#4285F4"), ("IN_VEHICLE", "#4285F4"), ("IN_PASSENGER_VEHICLE", "#4285F4"),
   ("DRIVE", "#4285F4"), ("IN_TAXI", "#FFEB3B"), ("MOTORCYCLING", "#1E90FF"),
   ("CYCLING", "#0F9D58"), ("ON_BICYCLE", "#0F9D58"), ("BICYCLE", "#0F9D58"),
   ("WALKING", "#DB4437"), ("ON_FOOT", "#DB4437"), ("WALK", "#DB4437"),
   ("RUNNING", "#DB4437"), ("HIKING", "#0F9D58"), ("IN_BUS", "#9C27B0"),
   ("IN_SUBWAY", "#673AB7"), ("IN_TRAIN", "#673AB7"), ("IN_TRAM", "#673AB7"),
   ("IN_FERRY", "#673AB7"), ("FLYING", "#03A9F4"), ("BOATING", "#00BCD4"),
   ("SWIMMING", "#00BCD4"), ("UNKNOWN", "#9E9E9E")]

/-- `get_activity_color` from the source. -/
def get_activity_color (s : String) : String :=
  (aLookup activityColors (pyUpper s)).getD "#9E9E9E"

/-- The label table of `format_activity_type`. -/
def activityLabels : List (String × String) :=
  [("IN_VEHICLE", "Driving"), ("IN_PASSENGER_VEHICLE", "In Vehicle"), ("DRIVE", "Driving"),
   ("IN_TAXI", "Taxi"), ("MOTORCYCLING", "Motorcycling"), ("ON_BICYCLE", "Cycling"),
   ("CYCLING", "Cycling"), ("BICYCLE", "Cycling"), ("ON_FOOT", "Walking"),
   ("WALKING", "Walking"), ("WALK", "Walking"), ("RUNNING", "Running"),
   ("HIKING", "Hiking"), ("IN_BUS", "Bus"), ("IN_SUBWAY", "Subway"),
   ("IN_TRAIN", "Train"), ("IN_TRAM", "Tram"), ("IN_FERRY", "Ferry"),
   ("STILL", "Stationary"), ("FLYING", "Flying"), ("BOATING", "Boating"),
   ("SWIMMING", "Swimming")]

/-- `format_activity_type` from the source. -/
def format_activity_type (s : String) : String :=
  (aLookup activityLabels (pyUpper s)).getD (pyTitle (pyReplUnderscore s))

/-! ## Derived temporal fields

The converter derives date/year/month/day/weekday from a timestamp value via
`datetime.fromisoformat` with substring fallbacks; every branch is wrapped in
a bare `except`, so the five extractors are total and never raise.  No claim
constrains their values, so the encoders below are parametrized by an
arbitrary such family of extractors, and every theorem holds for all of
them. -/

/-- The family of derived-time extractors
(`_extract_date/_year/_month/_day/_weekday`). -/
structure TimeDeriv where
  date : Json → Option String
  year : Json → Option Int
  month : Json → Option Int
  day : Json → Option Int
  weekday : Json → Option String

/-! ## `to_geojson` -/

/-- A GeoJSON geometry: a point's coordinates are `[lng, lat]`, a
LineString's are `[[lng, lat], ...]`. -/
inductive Geometry where
  | point (lng lat : Json)
  | lineString (coords : List (Json × Json))

/-- The properties dict of a visit Feature, field per key. -/
structure VisitProps where
  name : Json
  date : Option String
  year : Option Int
  month : Option Int
  day : Option Int
  weekday : Option String
  start_time : Json
  end_time : Json
  place_id : Json
  semantic_type : Json
  marker_color : String
  marker_symbol : String

/-- The properties dict of an activity Feature, field per key. -/
structure ActivityProps where
  name : String
  activity_type : Json
  date : Option String
  year : Option Int
  month : Option Int
  day : Option Int
  weekday : Option String
  start_time : Json
  end_time : Json
  distance_meters : Json
  stroke : String
  stroke_width : ℚ
  stroke_opacity : ℚ

/-- A GeoJSON Feature; the constructor records the `type` property
(`"visit"` / `"activity"`). -/
inductive Feature where
  | visitF (geometry : Geometry) (props : VisitProps)
  | activityF (geometry : Geometry) (props : ActivityProps)

/-- The geometry of a feature. -/
def Feature.geometry : Feature → Geometry
  | .visitF g _ => g
  | .activityF g _ => g

/-- The visit loop body of `to_geojson`: every visit yields a Point feature
with coordinates `[lng, lat]` and fixed marker styling. -/
def visitFeature (td : TimeDeriv) (v : Visit) : Feature :=
  .visitF (.point (.num v.lng) (.num v.lat))
    ⟨v.name, td.date v.start_time, td.year v.start_time, td.month v.start_time,
     td.day v.start_time, td.weekday v.start_time, v.start_time, v.end_time,
     v.place_id, v.semantic_type, "#FF0000", "marker"⟩

/-- The activity loop body of `to_geojson`: LineString for a path of length
`≥ 2` (coordinates flipped to `[lng, lat]` in path order), Point for a
single-point path.  An empty path raises `IndexError`; a non-string type
raises `AttributeError` inside `format_activity_type`. -/
def activityFeature (td : TimeDeriv) (a : Activity) : Except PyErr Feature :=
  bindE (if 2 ≤ a.path.length then
           .ok (Geometry.lineString (a.path.map fun p => (p.2, p.1)))
         else
           match a.path with
           | p :: _ => .ok (Geometry.point p.2 p.1)
           | [] => .error .indexError) fun geom =>
  bindE (match a.type with
         | .str s => .ok s
         | _ => .error .attributeError) fun tys =>
  .ok (.activityF geom
    ⟨format_activity_type tys, a.type, td.date a.start_time, td.year a.start_time,
     td.month a.start_time, td.day a.start_time, td.weekday a.start_time,
     a.start_time, a.end_time, a.distance, get_activity_color tys, 4, 8 / 10⟩)

/-- A GeoJSON FeatureCollection. -/
structure FeatureColl where
  features : List Feature

/-- `to_geojson` from the source: all visits first (in order), then all
activities (in order). -/
def to_geojson (td : TimeDeriv) (m : Model) : Except PyErr FeatureColl :=
  bindE (exFold (fun acc v => .ok (acc ++ [visitFeature td v])) [] m.1) fun vfs =>
  bindE (exFold (fun acc a => bindE (activityFeature td a) fun f => .ok (acc ++ [f])) vfs m.2)
    fun fs =>
  .ok ⟨fs⟩

/-! ## `to_kml`

The KML document is modelled as the `ElementTree` the method builds;
serialization and pretty-printing (`ET.tostring` / `minidom`) are not
modelled.  Two further abbreviations, neither touched by any claim: Python's
`str()` rendering of floats, and the iteration order of the `set` of
activity types (modelled as first-occurrence order; CPython's set order is
implementation-defined). -/

/-- An XML element as built via `xml.etree.ElementTree`: tag, attributes,
optional text, children in creation order. -/
inductive Xml where
  | el (tag : String) (attrs : List (String × String)) (text : Option String) (children : List Xml)

/-- Tag of an element. -/
def Xml.tag : Xml → String
  | .el t _ _ _ => t

/-- Text of an element. -/
def Xml.text : Xml → Option String
  | .el _ _ tx _ => tx

/-- Children of an element. -/
def Xml.children : Xml → List Xml
  | .el _ _ _ cs => cs

/-- Python `str()` of a JSON value as far as placemark text needs it.
`None`, booleans and strings render exactly; numeric and composite rendering
is abbreviated (Python's float repr is outside the model; no claim depends
on these strings). -/
def jsonToText : Json → String
  | .null => "None"
  | .bool true => "True"
  | .bool false => "False"
  | .num q => toString q.num ++ (if q.den = 1 then "" else "/" ++ toString q.den)
  | .str s => s
  | .arr _ => "[...]"
  | .obj _ => "dict(...)"

/-- `f"{x:.1f}"`-style one-decimal rendering (the exact rounding/format of
Python is abbreviated; no claim depends on this string). -/
def oneDecimal (q : ℚ) : String :=
  let n : Int := round (q * 10)
  toString (n / 10) ++ "." ++ toString (n % 10).natAbs

/-- `'\n'.join(parts)`. -/
def joinNl : List String → String
  | [] => ""
  | [x] => x
  | x :: xs => x ++ "\n" ++ joinNl xs

/-- Hex `#rrggbb` to KML `aabbggrr` with fixed alpha `cc`
(`f'cc{hex[4:6]}{hex[2:4]}{hex[0:2]}'` after `lstrip('#')`). -/
def kmlColor (color : String) : String :=
  let hex := color.data.dropWhile fun c => c == '#'
  ⟨'c' :: 'c' :: ((hex.drop 4).take 2 ++ (hex.drop 2).take 2 ++ hex.take 2)⟩

/-- One `Style` element per activity type (id = raw token). -/
def styleXml (actType : String) : Xml :=
  .el "Style" [("id", actType)] none
    [.el "LineStyle" [] none
      [.el "color" [] (some (kmlColor (get_activity_color actType))) [],
       .el "width" [] (some "4") []]]

/-- The shared pin style for visits. -/
def visitStyleXml : Xml :=
  .el "Style" [("id", "visitStyle")] none
    [.el "IconStyle" [] none
      [.el "scale" [] (some "1.1") [],
       .el "Icon" [] none
         [.el "href" [] (some "http://maps.google.com/mapfiles/kml/pushpin/red-pushpin.png") []]]]

/-- Equality of hashable (scalar) JSON values, used for the `set` of
activity types. -/
def scalarEq : Json → Json → Bool
  | .null, .null => true
  | .bool a, .bool b => a == b
  | .num a, .num b => a == b
  | .str a, .str b => a == b
  | _, _ => false

/-- `set(a['type'] for a in self.activities)` followed by the style loop:
list/dict types are unhashable (`TypeError` in `set`); non-string hashable
types fail in `get_activity_color`'s `.upper()` (`AttributeError`). -/
def styleTypeStrs (acts : List Activity) : Except PyErr (List String) :=
  bindE (exFold (fun acc a =>
      match a.type with
      | .arr _ => .error .typeError
      | .obj _ => .error .typeError
      | t => .ok (if acc.any (scalarEq t) then acc else acc ++ [t])) [] acts) fun tys =>
  exFold (fun acc t =>
      match t with
      | .str s => .ok (acc ++ [s])
      | _ => .error .attributeError) [] tys

/-- `self._extract_date(t) or 'Unknown'`. -/
def dateKey (td : TimeDeriv) (t : Json) : String :=
  match td.date t with
  | some s => if s.data.isEmpty then "Unknown" else s
  | none => "Unknown"

/-- Append to the list bound to `k`, creating the binding at the end if
absent — Python's insertion-ordered dict of lists. -/
def insAppend (groups : List (String × List α)) (k : String) (x : α) :
    List (String × List α) :=
  match groups with
  | [] => [(k, [x])]
  | (k2, xs) :: rest =>
    if k2 = k then (k2, xs ++ [x]) :: rest else (k2, xs) :: insAppend rest k x

/-- The by-date grouping loops of `to_kml`. -/
def groupByDate (td : TimeDeriv) (getT : α → Json) (xs : List α) :
    List (String × List α) :=
  xs.foldl (fun acc x => insAppend acc (dateKey td (getT x)) x) []

/-- Lexicographic comparison of strings by code point (Python `str` order). -/
def charListLe : List Char → List Char → Bool
  | [], _ => true
  | _ :: _, [] => false
  | c :: cs, d :: ds => if c == d then charListLe cs ds else decide (c.toNat < d.toNat)

/-- Insert into a sorted list of strings. -/
def sortInsert (s : String) : List String → List String
  | [] => [s]
  | x :: xs => if charListLe s.data x.data then s :: x :: xs else x :: sortInsert s xs

/-- Insertion sort of strings (the output of `sorted` on distinct keys). -/
def sortStrs : List String → List String
  | [] => []
  | x :: xs => sortInsert x (sortStrs xs)

/-- First-occurrence deduplication (the `set(...)` before `sorted`). -/
def dedupKeep : List String → List String
  | [] => []
  | x :: xs => if (dedupKeep xs).contains x then dedupKeep xs else x :: dedupKeep xs

/-- `sorted(set(keys))`. -/
def sortedDates (keys : List String) : List String :=
  sortStrs (dedupKeep keys)

/-- The visit placemark description (`Date:` then `Arrived:`/`Departed:`
for truthy timestamps). -/
def visitDesc (dateStr : String) (v : Visit) : String :=
  joinNl (["Date: " ++ dateStr]
    ++ (if v.start_time.truthy then ["Arrived: " ++ jsonToText v.start_time] else [])
    ++ (if v.end_time.truthy then ["Departed: " ++ jsonToText v.end_time] else []))

/-- One visit placemark: name, description, a `TimeSpan` exactly when both
timestamps are truthy, the shared style, and the `lng,lat,0` point. -/
def visitPlacemark (dateStr : String) (v : Visit) : Xml :=
  .el "Placemark" [] none
    ([.el "name" [] (some (jsonToText v.name)) [],
      .el "description" [] (some (visitDesc dateStr v)) []]
     ++ (if v.start_time.truthy && v.end_time.truthy then
           [.el "TimeSpan" [] none
             [.el "begin" [] (some (jsonToText v.start_time)) [],
              .el "end" [] (some (jsonToText v.end_time)) []]]
         else [])
     ++ [.el "styleUrl" [] (some "#visitStyle") [],
         .el "Point" [] none
           [.el "coordinates" []
             (some (jsonToText (.num v.lng) ++ "," ++ jsonToText (.num v.lat) ++ ",0")) []]])

/-- The activity placemark description; a truthy non-numeric distance makes
the `/ 1000` raise `TypeError`. -/
def activityDesc (dateStr : String) (a : Activity) : Except PyErr String :=
  bindE (if a.distance.truthy then
           bindE (pyDiv a.distance 1000) fun km =>
           .ok ["Distance: " ++ oneDecimal km ++ " km"]
         else .ok []) fun dparts =>
  .ok (joinNl (["Date: " ++ dateStr] ++ dparts
    ++ (if a.start_time.truthy then ["Start: " ++ jsonToText a.start_time] else [])
    ++ (if a.end_time.truthy then ["End: " ++ jsonToText a.end_time] else [])))

/-- One activity placemark (the caller only builds it for paths of length
`≥ 2`): name (formatted label), description, a `TimeSpan` exactly when both
timestamps are truthy, the type's style reference, and the `LineString`. -/
def activityPlacemark (dateStr : String) (a : Activity) : Except PyErr Xml :=
  bindE (match a.type with
         | .str s => .ok s
         | _ => .error .attributeError) fun tys =>
  bindE (activityDesc dateStr a) fun desc =>
  .ok (.el "Placemark" [] none
    ([.el "name" [] (some (format_activity_type tys)) [],
      .el "description" [] (some desc) []]
     ++ (if a.start_time.truthy && a.end_time.truthy then
           [.el "TimeSpan" [] none
             [.el "begin" [] (some (jsonToText a.start_time)) [],
              .el "end" [] (some (jsonToText a.end_time)) []]]
         else [])
     ++ [.el "styleUrl" [] (some ("#" ++ tys)) [],
         .el "LineString" [] none
           [.el "tessellate" [] (some "1") [],
            .el "coordinates" []
              (some (joinNl (a.path.map fun p =>
                jsonToText p.2 ++ "," ++ jsonToText p.1 ++ ",0"))) []]]))

/-- The per-date activity loop: activities with fewer than 2 path points are
skipped (`continue`), the rest become placemarks. -/
def dateActivityPlacemarks (dateStr : String) (acts : List Activity) :
    Except PyErr (List Xml) :=
  exFold (fun acc a =>
    if a.path.length < 2 then .ok acc
    else bindE (activityPlacemark dateStr a) fun x => .ok (acc ++ [x])) [] acts

/-- One date folder: the date name, then a "Places Visited" subfolder when
the date has visits, then an "Activities" subfolder when the date has
activities (regardless of how many of them survive the length filter). -/
def dateFolder (dateStr : String) (dvs : List Visit) (das : List Activity) :
    Except PyErr Xml :=
  bindE (dateActivityPlacemarks dateStr das) fun aps =>
  .ok (.el "Folder" [] none
    ([.el "name" [] (some dateStr) []]
     ++ (if dvs.isEmpty then [] else
          [.el "Folder" [] none
            ([.el "name" [] (some "Places Visited") []] ++ dvs.map (visitPlacemark dateStr))])
     ++ (if das.isEmpty then [] else
          [.el "Folder" [] none ([.el "name" [] (some "Activities") []] ++ aps)])))

/-- `to_kml` from the source, producing the element tree: document name,
one style per activity type, the visit style, then one folder per date in
ascending order. -/
def to_kml (td : TimeDeriv) (stem : String) (m : Model) : Except PyErr Xml :=
  bindE (styleTypeStrs m.2) fun tys =>
  let styles := tys.map styleXml
  let vbd := groupByDate td Visit.start_time m.1
  let abd := groupByDate td Activity.start_time m.2
  let allDates := sortedDates (vbd.map Prod.fst ++ abd.map Prod.fst)
  bindE (exFold (fun acc d =>
      bindE (dateFolder d ((aLookup vbd d).getD []) ((aLookup abd d).getD [])) fun f =>
      .ok (acc ++ [f])) [] allDates) fun folders =>
  .ok (.el "kml" [("xmlns", "http://www.opengis.net/kml/2.2")] none
    [.el "Document" [] none
      ([.el "name" [] (some ("Timeline Export - " ++ stem)) []]
       ++ styles ++ [visitStyleXml] ++ folders)])

/-! Query helpers over the element tree, used by the theorems. -/

/-- The children of `x` carrying tag `t`. -/
def Xml.childTagged (x : Xml) (t : String) : List Xml :=
  x.children.filter fun c => c.tag == t

/-- Does `x` have a direct child with tag `t`? -/
def hasChildTag (x : Xml) (t : String) : Bool :=
  x.children.any fun c => c.tag == t

/-- Is `x` a `Folder` whose `name` child carries text `t`? -/
def isNamedFolder (t : String) (x : Xml) : Bool :=
  x.tag == "Folder" && x.children.any fun c => c.tag == "name" && c.text == some t

/-! ## Shared lemmas about the loop combinator -/

theorem exFold_cons (f : α → β → Except PyErr α) (st : α) (x : β) (xs : List β) :
    exFold f st (x :: xs) =
      match f st x with
      | .error e => .error e
      | .ok st2 => exFold f st2 xs := rfl

theorem exFold_append (f : α → β → Except PyErr α) (l₁ l₂ : List β) (st : α) :
    exFold f st (l₁ ++ l₂) =
      match exFold f st l₁ with
      | .error e => .error e
      | .ok st2 => exFold f st2 l₂ := by
  induction l₁ generalizing st with
  | nil => simp [exFold]
  | cons x xs ih =>
    simp only [List.cons_append, exFold]
    cases f st x with
    | error e => rfl
    | ok st2 => exact ih st2

/-- A loop iteration that leaves every state unchanged can be dropped from
the middle of the item list: the records before and after it are processed
exactly as without it. -/
theorem exFold_skip_mid (f : α → β → Except PyErr α) (x : β)
    (h : ∀ st, f st x = .ok st) (pre rest : List β) (init : α) :
    exFold f init (pre ++ x :: rest) = exFold f init (pre ++ rest) := by
  induction pre generalizing init with
  | nil => simp [exFold, h]
  | cons p ps ih =>
    simp only [List.cons_append, exFold]
    cases f init p with
    | error e => rfl
    | ok st2 => exact ih st2

/-- An appending loop whose body cannot fail evaluates to the mapped list. -/
theorem exFold_append_pure (f : β → γ) (l : List β) (init : List γ) :
    exFold (fun acc b => .ok (acc ++ [f b])) init l = .ok (init ++ l.map f) := by
  induction l generalizing init with
  | nil => simp [exFold]
  | cons x xs ih => simp [exFold, ih]

/-- An appending loop over fallible per-element builders: if every element
builds (with property `P` relating element and result), the loop returns the
accumulated results in order. -/
theorem exFold_collect (g : β → Except PyErr γ) (P : β → γ → Prop) :
    ∀ (l : List β) (init : List γ), (∀ b ∈ l, ∃ c, g b = .ok c ∧ P b c) →
    ∃ cs, exFold (fun acc b => bindE (g b) fun c => .ok (acc ++ [c])) init l =
            .ok (init ++ cs) ∧
          List.Forall₂ P l cs := by
  intro l
  induction l with
  | nil => intro init _; exact ⟨[], by simp [exFold], List.Forall₂.nil⟩
  | cons b bs ih =>
    intro init h
    obtain ⟨c, hc, hP⟩ := h b (by simp)
    obtain ⟨cs, hcs, hPs⟩ := ih (init ++ [c]) fun b' hb' => h b' (by simp [hb'])
    refine ⟨c :: cs, ?_, List.Forall₂.cons hP hPs⟩
    simp only [exFold, hc, bindE_ok]
    simpa using hcs

/-- The geometry `activityFeature` produces, under the model invariants
(nonempty path, string type). -/
theorem activityFeature_spec (td : TimeDeriv) (a : Activity)
    (hp : a.path ≠ []) (hs : ∃ s, a.type = .str s) :
    ∃ f, activityFeature td a = .ok f ∧
      (∀ p, a.path = [p] → f.geometry = .point p.2 p.1) ∧
      (2 ≤ a.path.length → f.geometry = .lineString (a.path.map fun p => (p.2, p.1))) := by
  obtain ⟨s, hs⟩ := hs
  by_cases h2 : 2 ≤ a.path.length
  · refine ⟨.activityF (.lineString (a.path.map fun p => (p.2, p.1)))
      ⟨format_activity_type s, a.type, td.date a.start_time, td.year a.start_time,
       td.month a.start_time, td.day a.start_time, td.weekday a.start_time,
       a.start_time, a.end_time, a.distance, get_activity_color s, 4, 8 / 10⟩, ?_, ?_, ?_⟩
    · simp only [activityFeature, if_pos h2, hs, bindE_ok]
    · intro p hp1
      rw [hp1] at h2
      norm_num at h2
    · intro _
      simp [Feature.geometry]
  · cases hpath : a.path with
    | nil => exact absurd hpath hp
    | cons p rest =>
      cases rest with
      | cons q tl =>
        exfalso
        apply h2
        rw [hpath]
        simp only [List.length_cons]
        omega
      | nil =>
        refine ⟨.activityF (.point p.2 p.1)
          ⟨format_activity_type s, a.type, td.date a.start_time, td.year a.start_time,
           td.month a.start_time, td.day a.start_time, td.weekday a.start_time,
           a.start_time, a.end_time, a.distance, get_activity_color s, 4, 8 / 10⟩, ?_, ?_, ?_⟩
        · simp only [activityFeature, hs, bindE_ok, hpath, List.length_singleton]
          norm_num
        · intro p' hp'
          simp only [List.cons.injEq, and_true] at hp'
          simp [hp', Feature.geometry]
        · intro hlen
          norm_num at hlen

/-- C4: for every TimelineModel (activities with their invariant nonempty
paths and string types), the GeoJSON FeatureCollection holds exactly
`len(visits) + len(activities)` features: all visits first in source order,
each a Point feature at `[lng, lat]`, followed by the activities in source
order, a Point feature at the single path point when the path has length 1
and a LineString over the `[lng, lat]`-flipped path when it has length ≥ 2. -/
theorem c4_geojson_shape (td : TimeDeriv) (m : Model)
    (hpath : ∀ a ∈ m.2, a.path ≠ [])
    (hty : ∀ a ∈ m.2, ∃ s, a.type = .str s) :
    ∃ afs : List Feature,
      to_geojson td m = .ok ⟨m.1.map (visitFeature td) ++ afs⟩ ∧
      (m.1.map (visitFeature td) ++ afs).length = m.1.length + m.2.length ∧
      (∀ v : Visit, (visitFeature td v).geometry = .point (.num v.lng) (.num v.lat)) ∧
      List.Forall₂ (fun (a : Activity) (f : Feature) =>
        (∀ p, a.path = [p] → f.geometry = .point p.2 p.1) ∧
        (2 ≤ a.path.length → f.geometry = .lineString (a.path.map fun p => (p.2, p.1))))
        m.2 afs := by
  obtain ⟨afs, hfold, hP⟩ :=
    exFold_collect (activityFeature td)
      (fun a f =>
        (∀ p, a.path = [p] → f.geometry = .point p.2 p.1) ∧
        (2 ≤ a.path.length → f.geometry = .lineString (a.path.map fun p => (p.2, p.1))))
      m.2 (m.1.map (visitFeature td))
      (fun a ha => activityFeature_spec td a (hpath a ha) (hty a ha))
  refine ⟨afs, ?_, ?_, fun v => rfl, hP⟩
  · simp only [to_geojson, exFold_append_pure, List.nil_append, bindE_ok, hfold]
  · have := hP.length_eq
    simp [this]

/-- A constant extractor family for concrete runs. -/
def tdNone : TimeDeriv :=
  ⟨fun _ => none, fun _ => none, fun _ => none, fun _ => none, fun _ => none⟩

/-- Witness for `c4_geojson_shape` at a one-visit, one-activity model. -/
theorem c4_geojson_shape_witness :
    ∃ afs : List Feature,
      to_geojson tdNone ([⟨.str "Cafe", 1, 2, .str "S", .str "E", .null, .null⟩],
                         [⟨.str "WALKING", .str "S", .str "E", .num 0,
                           [(.num 1, .num 2), (.num 3, .num 4)]⟩]) =
        .ok ⟨[⟨.str "Cafe", 1, 2, .str "S", .str "E", .null, .null⟩].map (visitFeature tdNone)
              ++ afs⟩ ∧
      ([⟨.str "Cafe", 1, 2, .str "S", .str "E", .null, .null⟩].map (visitFeature tdNone)
        ++ afs).length = 1 + 1 ∧
      (∀ v : Visit, (visitFeature tdNone v).geometry = .point (.num v.lng) (.num v.lat)) ∧
      List.Forall₂ (fun (a : Activity) (f : Feature) =>
        (∀ p, a.path = [p] → f.geometry = .point p.2 p.1) ∧
        (2 ≤ a.path.length → f.geometry = .lineString (a.path.map fun p => (p.2, p.1))))
        [⟨.str "WALKING", .str "S", .str "E", .num 0, [(.num 1, .num 2), (.num 3, .num 4)]⟩]
        afs :=
  c4_geojson_shape tdNone
    ([⟨.str "Cafe", 1, 2, .str "S", .str "E", .null, .null⟩],
     [⟨.str "WALKING", .str "S", .str "E", .num 0, [(.num 1, .num 2), (.num 3, .num 4)]⟩])
    (by intro a ha; simp only [List.mem_singleton] at ha; subst ha; simp)
    (by intro a ha; simp only [List.mem_singleton] at ha; subst ha; exact ⟨"WALKING", rfl⟩)

/-! ## Record templates of the ios schema, and step lemmas -/

/-- An ios visit record with explicit field values. -/
def iosVisitRec (stT enT name ploc pid sem : Json) : Json :=
  .obj [("startTime", stT), ("endTime", enT),
        ("visit", .obj [("topCandidate",
          .obj [("name", name), ("placeLocation", ploc), ("placeID", pid),
                ("semanticType", sem)])])]

/-- An ios activity record with explicit field values. -/
def iosActivityRec (stT enT ty sj ej dist : Json) : Json :=
  .obj [("startTime", stT), ("endTime", enT),
        ("activity", .obj [("topCandidate", .obj [("type", ty)]),
          ("start", sj), ("end", ej), ("distanceMeters", dist)])]

/-- An ios visit record whose place location parses is turned into a Visit
carrying the record's values verbatim. -/
theorem iosStep_visit (st : Model) (stT enT name ploc pid sem : Json) (c : ℚ × ℚ)
    (hc : parse_geo_string ploc = some c) :
    iosStep st (iosVisitRec stT enT name ploc pid sem) =
      .ok (st.1 ++ [⟨name, c.1, c.2, stT, enT, pid, sem⟩], st.2) := by
  simp only [iosStep, iosVisitRec, Json.truthy, Json.hasStr, Json.idx, Json.pyGet, jLookup,
    String.reduceEq, reduceIte, Option.getD, Option.isSome, bindE_ok, hc, List.isEmpty,
    Bool.not_false, Bool.not_true, if_true, if_false]
  norm_num

/-- An ios visit record whose place location does not parse is skipped. -/
theorem iosStep_visit_skip (st : Model) (stT enT name ploc pid sem : Json)
    (hc : parse_geo_string ploc = none) :
    iosStep st (iosVisitRec stT enT name ploc pid sem) = .ok st := by
  simp only [iosStep, iosVisitRec, Json.truthy, Json.hasStr, Json.idx, Json.pyGet, jLookup,
    String.reduceEq, reduceIte, Option.getD, Option.isSome, bindE_ok, hc, List.isEmpty,
    Bool.not_false, Bool.not_true, if_true, if_false]
  norm_num

/-- Any ios record (of any shape) lacking the `startTime` key is skipped. -/
theorem iosStep_no_start (st : Model) (kvs : List (String × Json))
    (h : jLookup kvs "startTime" = none) :
    iosStep st (.obj kvs) = .ok st := by
  cases kvs with
  | nil => rfl
  | cons kv rest =>
    simp only [iosStep, Json.truthy, Json.hasStr, bindE_ok, h, List.isEmpty,
      Option.isSome_none, Bool.not_false, Bool.not_true, if_true, if_false]
    norm_num

/-- Any ios record lacking the `endTime` key is skipped. -/
theorem iosStep_no_end (st : Model) (kvs : List (String × Json))
    (h : jLookup kvs "endTime" = none) :
    iosStep st (.obj kvs) = .ok st := by
  cases kvs with
  | nil => rfl
  | cons kv rest =>
    simp only [iosStep, Json.truthy, Json.hasStr, bindE_ok, h, List.isEmpty,
      Bool.not_false, Bool.not_true, if_true, if_false]
    cases hxs : (jLookup (kv :: rest) "startTime").isSome <;>
      simp [hxs, Option.isSome_none]

/-- The one-point path the ios parser builds from the start coordinate. -/
def iosPath1 (sc0 : Option (ℚ × ℚ)) : List (Json × Json) :=
  match sc0 with
  | some c => [(.num c.1, .num c.2)]
  | none => []

/-- The path the ios parser builds from the start and end coordinates: the
end point is appended only when present and different from the start. -/
def iosPath2 (sc0 ec0 : Option (ℚ × ℚ)) : List (Json × Json) :=
  match ec0 with
  | some c => if ec0 = sc0 then iosPath1 sc0 else iosPath1 sc0 ++ [(.num c.1, .num c.2)]
  | none => iosPath1 sc0

/-- The activity branch of the ios parser on the template record, expressed
through the two parsed endpoint coordinates. -/
theorem iosStep_activity (st : Model) (stT enT ty sj ej dist : Json)
    (sc0 ec0 : Option (ℚ × ℚ))
    (hsc : parse_geo_string sj = sc0) (hec : parse_geo_string ej = ec0) :
    iosStep st (iosActivityRec stT enT ty sj ej dist) =
      (if (iosPath2 sc0 ec0).isEmpty then .ok st
       else .ok (st.1, st.2 ++ [⟨ty, stT, enT, dist, iosPath2 sc0 ec0⟩])) := by
  simp only [iosStep, iosActivityRec, Json.truthy, Json.hasStr, Json.idx, Json.pyGet, jLookup,
    String.reduceEq, reduceIte, Option.getD, Option.isSome, bindE_ok, hsc, hec, List.isEmpty,
    Bool.not_false, Bool.not_true, if_true, if_false, iosPath2, iosPath1]
  norm_num

/-- C10: an ios activity whose start and end strings parse to the same
coordinate pair yields a path of length exactly 1 (the duplicate endpoint is
not appended); such an activity becomes a Point feature in GeoJSON and
produces no placemark in the KML activity loop. -/
theorem c10_ios_equal_endpoints (st : Model) (stT enT sj ej dist : Json) (tys : String)
    (d : String) (td : TimeDeriv) (c : ℚ × ℚ)
    (hsc : parse_geo_string sj = some c) (hec : parse_geo_string ej = some c) :
    iosStep st (iosActivityRec stT enT (.str tys) sj ej dist) =
      .ok (st.1, st.2 ++ [⟨.str tys, stT, enT, dist, [(.num c.1, .num c.2)]⟩]) ∧
    (Activity.path ⟨.str tys, stT, enT, dist, [(.num c.1, .num c.2)]⟩).length = 1 ∧
    (∃ pr, activityFeature td ⟨.str tys, stT, enT, dist, [(.num c.1, .num c.2)]⟩ =
      .ok (.activityF (.point (.num c.2) (.num c.1)) pr)) ∧
    dateActivityPlacemarks d [⟨.str tys, stT, enT, dist, [(.num c.1, .num c.2)]⟩] = .ok [] := by
  refine ⟨?_, rfl, ?_, ?_⟩
  · rw [iosStep_activity st stT enT (.str tys) sj ej dist (some c) (some c) hsc hec]
    simp [iosPath2, iosPath1]
  · refine ⟨⟨format_activity_type tys, .str tys, td.date stT, td.year stT, td.month stT,
      td.day stT, td.weekday stT, stT, enT, dist, get_activity_color tys, 4, 8 / 10⟩, ?_⟩
    simp [activityFeature]
  · simp [dateActivityPlacemarks, exFold]

/-- Witness for `c10_ios_equal_endpoints` at the string `"geo:1.0,2.0"`. -/
theorem c10_ios_equal_endpoints_witness :
    iosStep ([], []) (iosActivityRec (.str "T0") (.str "T1") (.str "WALKING")
        (.str "geo:1.0,2.0") (.str "geo:1.0,2.0") (.num 120)) =
      .ok ([], [⟨.str "WALKING", .str "T0", .str "T1", .num 120,
        [(.num (floatVal ⟨false, ['1'], ['0'], 0⟩), .num (floatVal ⟨false, ['2'], ['0'], 0⟩))]⟩]) ∧
    (Activity.path ⟨.str "WALKING", .str "T0", .str "T1", .num 120,
      [(.num (floatVal ⟨false, ['1'], ['0'], 0⟩),
        .num (floatVal ⟨false, ['2'], ['0'], 0⟩))]⟩).length = 1 ∧
    (∃ pr, activityFeature tdNone ⟨.str "WALKING", .str "T0", .str "T1", .num 120,
        [(.num (floatVal ⟨false, ['1'], ['0'], 0⟩), .num (floatVal ⟨false, ['2'], ['0'], 0⟩))]⟩ =
      .ok (.activityF (.point (.num (floatVal ⟨false, ['2'], ['0'], 0⟩))
        (.num (floatVal ⟨false, ['1'], ['0'], 0⟩))) pr)) ∧
    dateActivityPlacemarks "2024-01-15" [⟨.str "WALKING", .str "T0", .str "T1", .num 120,
      [(.num (floatVal ⟨false, ['1'], ['0'], 0⟩),
        .num (floatVal ⟨false, ['2'], ['0'], 0⟩))]⟩] = .ok [] := by
  have h := c10_ios_equal_endpoints ([], []) (.str "T0") (.str "T1")
    (.str "geo:1.0,2.0") (.str "geo:1.0,2.0") (.num 120) "WALKING" "2024-01-15" tdNone
    (floatVal ⟨false, ['1'], ['0'], 0⟩, floatVal ⟨false, ['2'], ['0'], 0⟩) rfl rfl
  simpa using h

/-! ## Record templates of the standard and semantic schemas -/

/-- A standard-schema `timelineObjects` document. -/
def stdDoc (items : List Json) : Json :=
  .obj [("timelineObjects", .arr items)]

/-- A semantic-schema `semanticSegments` document. -/
def semDoc (items : List Json) : Json :=
  .obj [("semanticSegments", .arr items)]

/-- A standard placeVisit record with explicit field values. -/
def stdVisitRec (latE7 lngE7 name pid sem stT enT : Json) : Json :=
  .obj [("placeVisit", .obj [
    ("location", .obj [("latitudeE7", latE7), ("longitudeE7", lngE7), ("name", name),
                       ("placeId", pid), ("semanticType", sem)]),
    ("duration", .obj [("startTimestamp", stT), ("endTimestamp", enT)])])]

/-- A semantic visit segment with explicit field values. -/
def semVisitRec (stT enT name ll pid sem : Json) : Json :=
  .obj [("startTime", stT), ("endTime", enT),
        ("visit", .obj [("topCandidate", .obj [("name", name), ("semanticType", sem),
          ("placeLocation", .obj [("latLng", ll)]), ("placeId", pid)])])]

theorem stdDoc_parse (items : List Json) :
    parse_standard_format (stdDoc items) = exFold stdStep ([], []) items := rfl

theorem semDoc_parse (items : List Json) :
    parse_semantic_format (semDoc items) = exFold semStep ([], []) items := rfl

/-- A standard placeVisit with both scaled coordinates nonzero becomes a
Visit with `lat = latitudeE7/1e7`, `lng = longitudeE7/1e7` and the
normalized name. -/
theorem stdStep_visit (st : Model) (a b : ℚ) (name pid sem stT enT : Json)
    (ha : a / 10000000 ≠ 0) (hb : b / 10000000 ≠ 0) :
    stdStep st (stdVisitRec (.num a) (.num b) name pid sem stT enT) =
      .ok (st.1 ++ [⟨nameNorm sem name, a / 10000000, b / 10000000, stT, enT, pid, sem⟩],
           st.2) := by
  simp only [stdStep, stdVisitRec, stdPlaceVisit, Json.hasStr, Json.idx, Json.pyGet, jLookup,
    pyDiv, String.reduceEq, reduceIte, Option.getD, Option.isSome, bindE_ok, bindE_error]
  norm_num [ha, hb]

/-- A standard placeVisit with a zero scaled coordinate is dropped. -/
theorem stdStep_visit_skip (st : Model) (a b : ℚ) (name pid sem stT enT : Json)
    (h : a / 10000000 = 0 ∨ b / 10000000 = 0) :
    stdStep st (stdVisitRec (.num a) (.num b) name pid sem stT enT) = .ok st := by
  simp only [stdStep, stdVisitRec, stdPlaceVisit, Json.hasStr, Json.idx, Json.pyGet, jLookup,
    pyDiv, String.reduceEq, reduceIte, Option.getD, Option.isSome, bindE_ok, bindE_error]
  rcases h with h | h <;> norm_num [h]

/-- A semantic visit whose `latLng` parses becomes a Visit carrying the
parsed coordinates, the segment timestamps and the normalized name. -/
theorem semStep_visit (st : Model) (stT enT name ll pid sem : Json) (c : ℚ × ℚ)
    (hc : parse_latlng_string ll = .ok (some c)) :
    semStep st (semVisitRec stT enT name ll pid sem) =
      .ok (st.1 ++ [⟨nameNorm sem name, c.1, c.2, stT, enT, pid, sem⟩], st.2) := by
  simp only [semStep, semVisitRec, semVisit, Json.hasStr, Json.idx, Json.pyGet, jLookup,
    String.reduceEq, reduceIte, Option.getD, Option.isSome, bindE_ok, bindE_error, hc]

/-- A semantic visit whose `latLng` does not parse is skipped. -/
theorem semStep_visit_skip (st : Model) (stT enT name ll pid sem : Json)
    (hc : parse_latlng_string ll = .ok none) :
    semStep st (semVisitRec stT enT name ll pid sem) = .ok st := by
  simp only [semStep, semVisitRec, semVisit, Json.hasStr, Json.idx, Json.pyGet, jLookup,
    String.reduceEq, reduceIte, Option.getD, Option.isSome, bindE_ok, bindE_error, hc]

/-- C9 (counterexample): an ios record may carry the `startTime`/`endTime`
keys with JSON `null` values; it is then not skipped, and the emitted Visit
has null `start_time` and `end_time`, contrary to the claim that every
entity parsed from an ios document has non-null timestamps. -/
theorem c9_counterexample :
    parse_ios_format [iosVisitRec .null .null (.str "Cafe") (.str "geo:1.0,2.0") .null .null] =
      .ok ([⟨.str "Cafe", floatVal ⟨false, ['1'], ['0'], 0⟩, floatVal ⟨false, ['2'], ['0'], 0⟩,
            .null, .null, .null, .null⟩], []) ∧
    Visit.start_time ⟨.str "Cafe", floatVal ⟨false, ['1'], ['0'], 0⟩,
      floatVal ⟨false, ['2'], ['0'], 0⟩, .null, .null, .null, .null⟩ = .null :=
  ⟨rfl, rfl⟩

/-- C9 (amended): an ios record lacking the `startTime` or the `endTime`
key is skipped entirely — no Visit or Activity is parsed from it and every
later record is still processed — and an emitted ios Visit carries the
record's `startTime`/`endTime` values verbatim (which are non-null exactly
when the source values are). -/
theorem c9_ios_time_keys (kvs : List (String × Json)) (pre rest : List Json)
    (st : Model) (stT enT name ploc pid sem : Json) (c : ℚ × ℚ)
    (hmiss : jLookup kvs "startTime" = none ∨ jLookup kvs "endTime" = none)
    (hc : parse_geo_string ploc = some c) :
    parse_ios_format (pre ++ .obj kvs :: rest) = parse_ios_format (pre ++ rest) ∧
    iosStep st (iosVisitRec stT enT name ploc pid sem) =
      .ok (st.1 ++ [⟨name, c.1, c.2, stT, enT, pid, sem⟩], st.2) := by
  constructor
  · apply exFold_skip_mid
    intro st2
    rcases hmiss with h | h
    · exact iosStep_no_start st2 kvs h
    · exact iosStep_no_end st2 kvs h
  · exact iosStep_visit st stT enT name ploc pid sem c hc

/-- Witness for `c9_ios_time_keys`: a record with only an `endTime` key is
dropped, and a complete record's timestamps come through verbatim. -/
theorem c9_ios_time_keys_witness :
    parse_ios_format ([] ++ Json.obj [("endTime", .str "T1")] ::
        [iosVisitRec (.str "T0") (.str "T1") (.str "Cafe") (.str "geo:1.0,2.0") .null .null]) =
      parse_ios_format ([] ++
        [iosVisitRec (.str "T0") (.str "T1") (.str "Cafe") (.str "geo:1.0,2.0") .null .null]) ∧
    iosStep ([], []) (iosVisitRec (.str "T0") (.str "T1") (.str "Cafe")
        (.str "geo:1.0,2.0") .null .null) =
      .ok ([] ++ [⟨.str "Cafe", floatVal ⟨false, ['1'], ['0'], 0⟩,
        floatVal ⟨false, ['2'], ['0'], 0⟩, .str "T0", .str "T1", .null, .null⟩], []) :=
  c9_ios_time_keys [("endTime", .str "T1")] []
    [iosVisitRec (.str "T0") (.str "T1") (.str "Cafe") (.str "geo:1.0,2.0") .null .null]
    ([], []) (.str "T0") (.str "T1") (.str "Cafe") (.str "geo:1.0,2.0") .null .null
    (floatVal ⟨false, ['1'], ['0'], 0⟩, floatVal ⟨false, ['2'], ['0'], 0⟩)
    (Or.inl rfl) rfl

/-- C2 (counterexample): in the ios schema the semantic type is recorded but
the name is not normalized: a visit with `semanticType` `TYPE_HOME` keeps
its source name `"Cafe"` instead of `"Home"`. -/
theorem c2_counterexample :
    parse_ios_format [iosVisitRec (.str "T0") (.str "T1") (.str "Cafe")
        (.str "geo:1.0,2.0") .null (.str "TYPE_HOME")] =
      .ok ([⟨.str "Cafe", floatVal ⟨false, ['1'], ['0'], 0⟩, floatVal ⟨false, ['2'], ['0'], 0⟩,
            .str "T0", .str "T1", .null, .str "TYPE_HOME"⟩], []) ∧
    Json.str "Cafe" ≠ Json.str "Home" := by
  refine ⟨rfl, ?_⟩
  simp

/-- C2 (amended): the standard and semantic parsers force the Visit name to
`"Home"` when the source semantic type is `TYPE_HOME`/`Home` and to
`"Work"` when it is `TYPE_WORK`/`Work`, regardless of the source place
name; the ios parser performs no such normalization — its Visits keep the
source name for every semantic type (the ios semantic type `semI` below is
unconstrained). -/
theorem c2_normalization (st : Model) (a b : ℚ)
    (name pid sem semI tgt stT enT ll ploc : Json) (c : ℚ × ℚ)
    (ha : a / 10000000 ≠ 0) (hb : b / 10000000 ≠ 0)
    (hsem : ((sem = .str "TYPE_HOME" ∨ sem = .str "Home") ∧ tgt = .str "Home") ∨
            ((sem = .str "TYPE_WORK" ∨ sem = .str "Work") ∧ tgt = .str "Work"))
    (hll : parse_latlng_string ll = .ok (some c))
    (hploc : parse_geo_string ploc = some c) :
    stdStep st (stdVisitRec (.num a) (.num b) name pid sem stT enT) =
      .ok (st.1 ++ [⟨tgt, a / 10000000, b / 10000000, stT, enT, pid, sem⟩], st.2) ∧
    semStep st (semVisitRec stT enT name ll pid sem) =
      .ok (st.1 ++ [⟨tgt, c.1, c.2, stT, enT, pid, sem⟩], st.2) ∧
    iosStep st (iosVisitRec stT enT name ploc pid semI) =
      .ok (st.1 ++ [⟨name, c.1, c.2, stT, enT, pid, semI⟩], st.2) := by
  have hnn : nameNorm sem name = tgt := by
    rcases hsem with ⟨h, ht⟩ | ⟨h, ht⟩ <;> rcases h with h | h <;> subst h <;> subst ht <;> rfl
  refine ⟨?_, ?_, iosStep_visit st stT enT name ploc pid semI c hploc⟩
  · rw [stdStep_visit st a b name pid sem stT enT ha hb, hnn]
  · rw [semStep_visit st stT enT name ll pid sem c hll, hnn]

/-- Witness for `c2_normalization` at concrete records: a `TYPE_WORK` visit
is renamed to `"Work"` by the standard and semantic parsers, while an ios
visit with semantic type `TYPE_HOME` keeps its source name `"Cafe"`. -/
theorem c2_normalization_witness :
    stdStep ([], []) (stdVisitRec (.num 100000000) (.num 200000000) (.str "Cafe") .null
        (.str "TYPE_WORK") (.str "S") (.str "E")) =
      .ok ([] ++ [⟨.str "Work", 100000000 / 10000000, 200000000 / 10000000,
        .str "S", .str "E", .null, .str "TYPE_WORK"⟩], []) ∧
    semStep ([], []) (semVisitRec (.str "S") (.str "E") (.str "Cafe") (.str "1.5°, 2.5°")
        .null (.str "TYPE_WORK")) =
      .ok ([] ++ [⟨.str "Work", (floatVal ⟨false, ['1'], ['5'], 0⟩,
          floatVal ⟨false, ['2'], ['5'], 0⟩).1,
        (floatVal ⟨false, ['1'], ['5'], 0⟩, floatVal ⟨false, ['2'], ['5'], 0⟩).2,
        .str "S", .str "E", .null, .str "TYPE_WORK"⟩], []) ∧
    iosStep ([], []) (iosVisitRec (.str "S") (.str "E") (.str "Cafe")
        (.str "geo:1.5,2.5") .null (.str "TYPE_HOME")) =
      .ok ([] ++ [⟨.str "Cafe", (floatVal ⟨false, ['1'], ['5'], 0⟩,
          floatVal ⟨false, ['2'], ['5'], 0⟩).1,
        (floatVal ⟨false, ['1'], ['5'], 0⟩, floatVal ⟨false, ['2'], ['5'], 0⟩).2,
        .str "S", .str "E", .null, .str "TYPE_HOME"⟩], []) :=
  c2_normalization ([], []) 100000000 200000000 (.str "Cafe") .null (.str "TYPE_WORK")
    (.str "TYPE_HOME") (.str "Work") (.str "S") (.str "E") (.str "1.5°, 2.5°")
    (.str "geo:1.5,2.5")
    (floatVal ⟨false, ['1'], ['5'], 0⟩, floatVal ⟨false, ['2'], ['5'], 0⟩)
    (by norm_num) (by norm_num) (Or.inr ⟨Or.inl rfl, rfl⟩) rfl rfl

/-- C3 (counterexample): a placeVisit whose `latitudeE7` is 0 has perfectly
valid scaled coordinates (0 ∈ [-90, 90], 20 ∈ [-180, 180]) yet no Visit is
emitted — the record is dropped by the truthiness check. -/
theorem c3_counterexample :
    parse_standard_format (stdDoc [stdVisitRec (.num 0) (.num 200000000) (.str "Somewhere")
        .null (.str "") (.str "S") (.str "E")]) = .ok ([], []) ∧
    (0 : ℚ) / 10000000 = 0 ∧
    (-90 : ℚ) ≤ 0 / 10000000 ∧ (0 : ℚ) / 10000000 ≤ 90 ∧
    (-180 : ℚ) ≤ 200000000 / 10000000 ∧ (200000000 : ℚ) / 10000000 ≤ 180 := by
  refine ⟨?_, by norm_num, by norm_num, by norm_num, by norm_num, by norm_num⟩
  rw [stdDoc_parse]
  have h := stdStep_visit_skip ([], []) 0 200000000 (.str "Somewhere") .null (.str "")
    (.str "S") (.str "E") (Or.inl (by norm_num))
  simp [exFold, h]

/-- C3 (amended): a standard placeVisit with numeric `latitudeE7` and
`longitudeE7` emits a Visit with `lat = latitudeE7/1e7` and
`lng = longitudeE7/1e7` exactly when both scaled values are nonzero (no
range check is applied — any nonzero values pass); when either scaled value
is zero the record is dropped. -/
theorem c3_std_e7_visit (st : Model) (a b : ℚ) (name pid stT enT : Json) :
    (a / 10000000 ≠ 0 → b / 10000000 ≠ 0 →
      stdStep st (stdVisitRec (.num a) (.num b) name pid (.str "") stT enT) =
        .ok (st.1 ++ [⟨name, a / 10000000, b / 10000000, stT, enT, pid, .str ""⟩], st.2)) ∧
    (a / 10000000 = 0 ∨ b / 10000000 = 0 →
      stdStep st (stdVisitRec (.num a) (.num b) name pid (.str "") stT enT) = .ok st) := by
  constructor
  · intro ha hb
    rw [stdStep_visit st a b name pid (.str "") stT enT ha hb]
    rfl
  · intro h
    exact stdStep_visit_skip st a b name pid (.str "") stT enT h

/-- Witness for `c3_std_e7_visit`: an out-of-range latitude (200°) is still
emitted, and a zero latitude is dropped. -/
theorem c3_std_e7_visit_witness :
    ((2000000000 : ℚ) / 10000000 ≠ 0 → (200000000 : ℚ) / 10000000 ≠ 0 →
      stdStep ([], []) (stdVisitRec (.num 2000000000) (.num 200000000) (.str "N") .null
          (.str "") (.str "S") (.str "E")) =
        .ok ([] ++ [⟨.str "N", 2000000000 / 10000000, 200000000 / 10000000,
          .str "S", .str "E", .null, .str ""⟩], [])) ∧
    ((2000000000 : ℚ) / 10000000 = 0 ∨ (200000000 : ℚ) / 10000000 = 0 →
      stdStep ([], []) (stdVisitRec (.num 2000000000) (.num 200000000) (.str "N") .null
          (.str "") (.str "S") (.str "E")) = .ok ([], [])) ∧
    (2000000000 : ℚ) / 10000000 = 200 ∧
    stdStep ([], []) (stdVisitRec (.num 0) (.num 200000000) (.str "N") .null
        (.str "") (.str "S") (.str "E")) = .ok ([], []) :=
  ⟨(c3_std_e7_visit ([], []) 2000000000 200000000 (.str "N") .null (.str "S") (.str "E")).1,
   (c3_std_e7_visit ([], []) 2000000000 200000000 (.str "N") .null (.str "S") (.str "E")).2,
   by norm_num,
   (c3_std_e7_visit ([], []) 0 200000000 (.str "N") .null (.str "S") (.str "E")).2
     (Or.inl (by norm_num))⟩

/-- C1 (counterexample): a single malformed record can abort the whole run.
A placeVisit whose `latitudeE7` holds a string raises an uncaught
`TypeError` in the `/ 1e7` division, and the valid record after it is never
processed — although that record alone yields a Visit. -/
theorem c1_counterexample :
    parse_standard_format (stdDoc
      [.obj [("placeVisit", .obj [("location", .obj [("latitudeE7", .str "abc")])])],
       stdVisitRec (.num 100000000) (.num 200000000) (.str "X") .null (.str "")
         (.str "S") (.str "E")]) = .error .typeError ∧
    parse_standard_format (stdDoc
      [stdVisitRec (.num 100000000) (.num 200000000) (.str "X") .null (.str "")
        (.str "S") (.str "E")]) =
      .ok ([⟨.str "X", 10, 20, .str "S", .str "E", .null, .str ""⟩], []) := by
  refine ⟨rfl, ?_⟩
  rw [stdDoc_parse]
  have h := stdStep_visit ([], []) 100000000 200000000 (.str "X") .null (.str "")
    (.str "S") (.str "E") (by norm_num) (by norm_num)
  have hn : nameNorm (.str "") (.str "X") = .str "X" := rfl
  simp only [exFold, h, hn]
  norm_num

/-! The C1 theorem and its witness appear after the activity-record
templates shared with the path-fallback development below. -/

/-- C8 (counterexample): a non-object, non-array JSON root does not fail
with `UnrecognizedFormat`: a numeric root raises an uncaught `TypeError` in
the `'timelineObjects' in self.data` membership test, and a string root
containing `"timelineObjects"` is detected as the standard format and then
raises `AttributeError` inside the parser. -/
theorem c8_counterexample :
    load (.num 42) = .error .typeError ∧
    load (.str "contains timelineObjects somewhere") = .error .attributeError :=
  ⟨rfl, rfl⟩

/-- C8 (amended): detection by root shape.  An array root is parsed as ios;
an object root is parsed as standard when it has the key `timelineObjects`,
else as semantic when it has `semanticSegments`, else the run fails with
`UnrecognizedFormat` (modelled `.ok none`) emitting nothing.  Roots of any
other shape never produce `UnrecognizedFormat` through the key checks alone:
`null`, booleans and numbers raise `TypeError`, and a string root is
searched for the key names as substrings — a hit dispatches to a parser
that raises `AttributeError`, a double miss yields `UnrecognizedFormat`. -/
theorem c8_format_detection
    (items : List Json) (m : Model) (e : PyErr) (kvs : List (String × Json))
    (q : ℚ) (bl : Bool) (s : String) :
    (parse_ios_format items = .ok m → load (.arr items) = .ok (some (.ios, m))) ∧
    (parse_ios_format items = .error e → load (.arr items) = .error e) ∧
    ((jLookup kvs "timelineObjects").isSome = true →
      load (.obj kvs) =
        bindE (parse_standard_format (.obj kvs)) fun m2 => .ok (some (.standard, m2))) ∧
    (jLookup kvs "timelineObjects" = none →
      (jLookup kvs "semanticSegments").isSome = true →
      load (.obj kvs) =
        bindE (parse_semantic_format (.obj kvs)) fun m2 => .ok (some (.semantic, m2))) ∧
    (jLookup kvs "timelineObjects" = none → jLookup kvs "semanticSegments" = none →
      load (.obj kvs) = .ok none) ∧
    load .null = .error .typeError ∧
    load (.bool bl) = .error .typeError ∧
    load (.num q) = .error .typeError ∧
    (charContains s.data "timelineObjects".data = true →
      load (.str s) = .error .attributeError) ∧
    (charContains s.data "timelineObjects".data = false →
      charContains s.data "semanticSegments".data = true →
      load (.str s) = .error .attributeError) ∧
    (charContains s.data "timelineObjects".data = false →
      charContains s.data "semanticSegments".data = false →
      load (.str s) = .ok none) := by
  refine ⟨?_, ?_, ?_, ?_, ?_, rfl, rfl, rfl, ?_, ?_, ?_⟩
  · intro hok; simp [load, hok]
  · intro herr; simp [load, herr]
  · intro hTL; simp [load, Json.hasStr, hTL]
  · intro hno hSS; simp [load, Json.hasStr, hno, hSS]
  · intro hno hno2; simp [load, Json.hasStr, hno, hno2]
  · intro hs; simp [load, Json.hasStr, hs, parse_standard_format, Json.pyGet]
  · intro hs hs2; simp [load, Json.hasStr, hs, hs2, parse_semantic_format, Json.pyGet]
  · intro hs hs2; simp [load, Json.hasStr, hs, hs2]

/-- Witness for `c8_format_detection` at concrete roots of several shapes:
an empty array, an object with neither key, a number, and three strings. -/
theorem c8_format_detection_witness :
    load (.arr []) = .ok (some (.ios, ([], []))) ∧
    load (.obj [("foo", .null)]) = .ok none ∧
    load (.num 42) = .error .typeError ∧
    load (.str "has timelineObjects inside") = .error .attributeError ∧
    load (.str "has semanticSegments inside") = .error .attributeError ∧
    load (.str "plain words") = .ok none := by
  refine ⟨(c8_format_detection [] ([], []) .typeError [("foo", .null)] 42 true "x").1 rfl,
    ?_, ?_, ?_, ?_, ?_⟩
  · exact (c8_format_detection [] ([], []) .typeError [("foo", .null)] 42 true
      "x").2.2.2.2.1 rfl rfl
  · exact (c8_format_detection [] ([], []) .typeError [("foo", .null)] 42 true
      "x").2.2.2.2.2.2.2.1
  · exact (c8_format_detection [] ([], []) .typeError [("foo", .null)] 42 true
      "has timelineObjects inside").2.2.2.2.2.2.2.2.1 rfl
  · exact (c8_format_detection [] ([], []) .typeError [("foo", .null)] 42 true
      "has semanticSegments inside").2.2.2.2.2.2.2.2.2.1 rfl rfl
  · exact (c8_format_detection [] ([], []) .typeError [("foo", .null)] 42 true
      "plain words").2.2.2.2.2.2.2.2.2.2 rfl rfl

/-- C5 (counterexample): TimeSpan presence is Python truthiness, not
non-nullness.  A visit whose `start_time` is the empty string — a non-null
value — gets no `TimeSpan` element, refuting the claimed "iff both are
non-null". -/
theorem c5_counterexample :
    hasChildTag (visitPlacemark "2024-01-15"
      ⟨.str "Cafe", 1, 2, .str "", .str "2024-01-15T09:00:00Z", .null, .null⟩) "TimeSpan"
      = false ∧
    Json.str "" ≠ Json.null ∧
    Json.str "2024-01-15T09:00:00Z" ≠ Json.null :=
  ⟨rfl, fun h => Json.noConfusion h, fun h => Json.noConfusion h⟩

/-- C5 (amended): for every visit and every activity placemark of the KML
document, a `TimeSpan` element is present if and only if both `start_time`
and `end_time` are truthy — non-null AND non-empty/non-zero/non-false.  In
particular an absent (null) timestamp suppresses the `TimeSpan`, but so does
an empty string. -/
theorem c5_timespan_truthy (d : String) (v : Visit) (a : Activity) (x : Xml)
    (hx : activityPlacemark d a = .ok x) :
    (hasChildTag (visitPlacemark d v) "TimeSpan" = true ↔
      v.start_time.truthy = true ∧ v.end_time.truthy = true) ∧
    (hasChildTag x "TimeSpan" = true ↔
      a.start_time.truthy = true ∧ a.end_time.truthy = true) := by
  constructor
  · cases hs : v.start_time.truthy <;> cases he : v.end_time.truthy <;>
      simp [visitPlacemark, hasChildTag, hs, he, Xml.tag, Xml.children, beq_iff_eq,
        String.reduceEq]
  · have hmain : ∀ s : String, a.type = .str s →
        (hasChildTag x "TimeSpan" = true ↔
          a.start_time.truthy = true ∧ a.end_time.truthy = true) := by
      intro s hty
      simp only [activityPlacemark, hty, bindE_ok, bindE_error] at hx
      cases hdesc : activityDesc d a with
      | error e => rw [hdesc] at hx; exact Except.noConfusion hx
      | ok desc =>
        rw [hdesc] at hx
        simp only [bindE_ok, Except.ok.injEq] at hx
        subst hx
        cases hs : a.start_time.truthy <;> cases he : a.end_time.truthy <;>
          simp [hasChildTag, hs, he, Xml.tag, Xml.children, beq_iff_eq, String.reduceEq]
    cases hty : a.type with
    | str s => exact hmain s hty
    | null =>
      simp only [activityPlacemark, hty, bindE_error] at hx
      exact Except.noConfusion hx
    | bool b =>
      simp only [activityPlacemark, hty, bindE_error] at hx
      exact Except.noConfusion hx
    | num q =>
      simp only [activityPlacemark, hty, bindE_error] at hx
      exact Except.noConfusion hx
    | arr items =>
      simp only [activityPlacemark, hty, bindE_error] at hx
      exact Except.noConfusion hx
    | obj fields =>
      simp only [activityPlacemark, hty, bindE_error] at hx
      exact Except.noConfusion hx

/-- Witness for `c5_timespan_truthy` at a concrete visit and activity. -/
theorem c5_timespan_truthy_witness :
    (hasChildTag (visitPlacemark "2024-01-15"
        ⟨.str "Cafe", 1, 2, .str "T0", .str "T1", .null, .null⟩) "TimeSpan" = true ↔
      (Json.str "T0").truthy = true ∧ (Json.str "T1").truthy = true) ∧
    (hasChildTag (.el "Placemark" [] none
        ([.el "name" [] (some (format_activity_type "WALKING")) [],
          .el "description" [] (some "Date: 2024-01-15\nStart: T0\nEnd: T1") []]
         ++ [.el "TimeSpan" [] none
              [.el "begin" [] (some "T0") [], .el "end" [] (some "T1") []]]
         ++ [.el "styleUrl" [] (some "#WALKING") [],
             .el "LineString" [] none
               [.el "tessellate" [] (some "1") [],
                .el "coordinates" [] (some "2,1,0\n4,3,0") []]])) "TimeSpan" = true ↔
      (Json.str "T0").truthy = true ∧ (Json.str "T1").truthy = true) := by
  have hx : activityPlacemark "2024-01-15"
      ⟨.str "WALKING", .str "T0", .str "T1", .num 0, [(.num 1, .num 2), (.num 3, .num 4)]⟩ =
      .ok (.el "Placemark" [] none
        ([.el "name" [] (some (format_activity_type "WALKING")) [],
          .el "description" [] (some "Date: 2024-01-15\nStart: T0\nEnd: T1") []]
         ++ [.el "TimeSpan" [] none
              [.el "begin" [] (some "T0") [], .el "end" [] (some "T1") []]]
         ++ [.el "styleUrl" [] (some "#WALKING") [],
             .el "LineString" [] none
               [.el "tessellate" [] (some "1") [],
                .el "coordinates" [] (some "2,1,0\n4,3,0") []]])) := by
    simp only [activityPlacemark, activityDesc, bindE_ok, Json.truthy]
    norm_num [joinNl, jsonToText]
    decide
  exact c5_timespan_truthy "2024-01-15"
    ⟨.str "Cafe", 1, 2, .str "T0", .str "T1", .null, .null⟩
    ⟨.str "WALKING", .str "T0", .str "T1", .num 0, [(.num 1, .num 2), (.num 3, .num 4)]⟩
    _ hx

/-- The KML activity loop emits exactly one placemark per activity whose
path has at least two points. -/
theorem dateActivityPlacemarks_length (d : String) :
    ∀ (acts : List Activity) (init xs : List Xml),
    exFold (fun acc a =>
        if a.path.length < 2 then .ok acc
        else bindE (activityPlacemark d a) fun x => .ok (acc ++ [x])) init acts = .ok xs →
    xs.length = init.length + (acts.filter fun a2 => 2 ≤ a2.path.length).length := by
  intro acts
  induction acts with
  | nil =>
    intro init xs h
    simp only [exFold, Except.ok.injEq] at h
    subst h
    simp
  | cons a rest ih =>
    intro init xs h
    by_cases hlen : a.path.length < 2
    · rw [exFold_cons, if_pos hlen] at h
      have := ih init xs h
      rw [this]
      have hf : (2 ≤ a.path.length) = False := by simp; omega
      simp [List.filter_cons, hf]
    · rw [exFold_cons, if_neg hlen] at h
      cases hap : activityPlacemark d a with
      | error e => rw [hap] at h; simp only [bindE_error] at h; exact Except.noConfusion h
      | ok x =>
        rw [hap] at h
        simp only [bindE_ok] at h
        have := ih (init ++ [x]) xs h
        rw [this]
        have ht : (2 ≤ a.path.length) = True := by simp; omega
        simp [List.filter_cons, ht]
        omega

/-- Every visit placemark is a `Placemark` element. -/
theorem visitPlacemark_tag (d : String) (v : Visit) :
    (visitPlacemark d v).tag = "Placemark" := rfl

/-- Every successfully built activity placemark is a `Placemark` element. -/
theorem activityPlacemark_tag (d : String) (a : Activity) (x : Xml)
    (h : activityPlacemark d a = .ok x) : x.tag = "Placemark" := by
  cases hty : a.type with
  | str s =>
    simp only [activityPlacemark, hty, bindE_ok] at h
    cases hdesc : activityDesc d a with
    | error e => rw [hdesc] at h; exact Except.noConfusion h
    | ok desc =>
      rw [hdesc] at h
      simp only [bindE_ok, Except.ok.injEq] at h
      subst h
      rfl
  | null => simp only [activityPlacemark, hty, bindE_error] at h; exact Except.noConfusion h
  | bool b => simp only [activityPlacemark, hty, bindE_error] at h; exact Except.noConfusion h
  | num q => simp only [activityPlacemark, hty, bindE_error] at h; exact Except.noConfusion h
  | arr l => simp only [activityPlacemark, hty, bindE_error] at h; exact Except.noConfusion h
  | obj l => simp only [activityPlacemark, hty, bindE_error] at h; exact Except.noConfusion h

/-- Everything the KML activity loop collects is a `Placemark` element. -/
theorem dateActivityPlacemarks_tags (d : String) :
    ∀ (acts : List Activity) (init xs : List Xml),
    exFold (fun acc a =>
        if a.path.length < 2 then .ok acc
        else bindE (activityPlacemark d a) fun x => .ok (acc ++ [x])) init acts = .ok xs →
    (∀ y ∈ init, y.tag = "Placemark") → ∀ y ∈ xs, y.tag = "Placemark" := by
  intro acts
  induction acts with
  | nil =>
    intro init xs h hinit
    simp only [exFold, Except.ok.injEq] at h
    subst h
    exact hinit
  | cons a rest ih =>
    intro init xs h hinit
    by_cases hlen : a.path.length < 2
    · rw [exFold_cons, if_pos hlen] at h
      exact ih init xs h hinit
    · rw [exFold_cons, if_neg hlen] at h
      cases hap : activityPlacemark d a with
      | error e => rw [hap] at h; simp only [bindE_error] at h; exact Except.noConfusion h
      | ok x =>
        rw [hap] at h
        simp only [bindE_ok] at h
        refine ih (init ++ [x]) xs h ?_
        intro y hy
        rcases List.mem_append.mp hy with hy | hy
        · exact hinit y hy
        · rw [List.mem_singleton.mp hy]
          exact activityPlacemark_tag d a x hap

/-- A folder whose `name` child carries text `t` is recognized. -/
theorem isNamedFolder_head (t : String) (attrs : List (String × String)) (more : List Xml) :
    isNamedFolder t (.el "Folder" attrs none (.el "name" [] (some t) [] :: more)) = true := by
  simp [isNamedFolder, Xml.tag, Xml.children, Xml.text]

/-- A folder named `t'` with only `Placemark` elements after the name child
is not recognized as a folder named `t ≠ t'`. -/
theorem isNamedFolder_ne (t t' : String) (attrs : List (String × String)) (more : List Xml)
    (hne : t' ≠ t) (hmore : ∀ y ∈ more, y.tag = "Placemark") :
    isNamedFolder t (.el "Folder" attrs none (.el "name" [] (some t') [] :: more)) = false := by
  have h1 : (some t' == some t) = false := by
    simp [hne]
  simp [isNamedFolder, Xml.tag, Xml.children, Xml.text, h1]
  intro y hy
  have hm := hmore y hy
  cases y with
  | el tg a2 tx ch =>
    simp only [Xml.tag] at hm
    subst hm
    simp

/-- C6 (amended): in the KML output an activity placemark is produced only
for activities with path length ≥ 2; within each date folder the
"Places Visited" and "Activities" subfolders are created exactly when the
date's visit list (respectively activity list) is nonempty — so an
"Activities" subfolder can be present yet contain zero placemarks when all
of that date's activities have short paths; a path-1 activity still appears
in GeoJSON as a Point feature while producing no KML placemark. -/
theorem c6_kml_activity_filter (d : String) (acts : List Activity) (dvs : List Visit)
    (xs : List Xml) (f : Xml) (a : Activity) (p : Json × Json) (td : TimeDeriv) (s : String) :
    (dateActivityPlacemarks d acts = .ok xs →
      xs.length = (acts.filter fun a2 => 2 ≤ a2.path.length).length) ∧
    (dateFolder d dvs acts = .ok f →
      ((f.children.any (isNamedFolder "Places Visited") = true) ↔ dvs ≠ []) ∧
      ((f.children.any (isNamedFolder "Activities") = true) ↔ acts ≠ [])) ∧
    (a.path = [p] → a.type = .str s →
      (∃ pr, activityFeature td a = .ok (.activityF (.point p.2 p.1) pr)) ∧
      dateActivityPlacemarks d [a] = .ok []) := by
  refine ⟨?_, ?_, ?_⟩
  · intro h
    simpa using dateActivityPlacemarks_length d acts [] xs h
  · intro hf
    cases haps : dateActivityPlacemarks d acts with
    | error e =>
      rw [dateFolder, haps] at hf
      simp only [bindE_error] at hf
      exact Except.noConfusion hf
    | ok aps =>
      rw [dateFolder, haps] at hf
      simp only [bindE_ok, Except.ok.injEq] at hf
      subst hf
      have htags : ∀ y ∈ aps, y.tag = "Placemark" :=
        dateActivityPlacemarks_tags d acts [] aps haps (by intro y hy; cases hy)
      have hvtags : ∀ y ∈ dvs.map (visitPlacemark d), y.tag = "Placemark" := by
        intro y hy
        obtain ⟨v, _, hv⟩ := List.mem_map.mp hy
        rw [← hv]
        rfl
      have hname : isNamedFolder "Places Visited" (.el "name" [] (some d) []) = false := rfl
      have hname2 : isNamedFolder "Activities" (.el "name" [] (some d) []) = false := rfl
      have hv_pv := isNamedFolder_head "Places Visited" [] (dvs.map (visitPlacemark d))
      have ha_act := isNamedFolder_head "Activities" [] aps
      have hv_act := isNamedFolder_ne "Activities" "Places Visited" [] (dvs.map (visitPlacemark d))
        (by simp) hvtags
      have ha_pv := isNamedFolder_ne "Places Visited" "Activities" [] aps (by simp) htags
      constructor
      · cases hd : dvs.isEmpty
        case false =>
          have hne : dvs ≠ [] := fun h => by rw [h] at hd; exact Bool.noConfusion hd
          simp [Xml.children, hd, List.any_append, hname, hv_pv, ha_pv, hne]
        case true =>
          have hdnil : dvs = [] := by
            cases dvs with
            | nil => rfl
            | cons v vs => exact Bool.noConfusion hd
          subst hdnil
          cases hacts : acts.isEmpty
          case false =>
            simp [Xml.children, hacts, List.any_append, hname, ha_pv]
          case true =>
            simp [Xml.children, hacts, List.any_append, hname]
      · cases hacts : acts.isEmpty
        case false =>
          have hne : acts ≠ [] := fun h => by rw [h] at hacts; exact Bool.noConfusion hacts
          simp [Xml.children, hacts, List.any_append, hname2, ha_act, hv_act, hne]
        case true =>
          have hanil : acts = [] := by
            cases acts with
            | nil => rfl
            | cons x l => exact Bool.noConfusion hacts
          subst hanil
          cases hd : dvs.isEmpty
          case false => simp [Xml.children, hd, List.any_append, hname2, hv_act]
          case true => simp [Xml.children, hd, List.any_append, hname2]
  · intro hpath htyv
    constructor
    · refine ⟨⟨format_activity_type s, a.type, td.date a.start_time, td.year a.start_time,
        td.month a.start_time, td.day a.start_time, td.weekday a.start_time,
        a.start_time, a.end_time, a.distance, get_activity_color s, 4, 8 / 10⟩, ?_⟩
      simp only [activityFeature, hpath, htyv, List.length_singleton, bindE_ok]
      norm_num
    · simp [dateActivityPlacemarks, exFold, hpath]

/-- A single-point walking activity, used by concrete KML runs. -/
def c6wAct : Activity :=
  ⟨.str "WALKING", .str "T0", .str "T1", .num 0, [(.num 1, .num 2)]⟩

/-- A concrete visit, used by concrete KML runs. -/
def c6wVisit : Visit :=
  ⟨.str "Cafe", 1, 2, .str "T0", .str "T1", .null, .null⟩

/-- The date folder `dateFolder "D" [c6wVisit] [c6wAct]` builds. -/
def c6wFolder : Xml :=
  .el "Folder" [] none
    [.el "name" [] (some "D") [],
     .el "Folder" [] none
       ([.el "name" [] (some "Places Visited") []] ++ [c6wVisit].map (visitPlacemark "D")),
     .el "Folder" [] none [.el "name" [] (some "Activities") []]]

/-- Witness for `c6_kml_activity_filter` at a one-visit, one-short-activity
date folder. -/
theorem c6_kml_activity_filter_witness :
    (dateActivityPlacemarks "D" [c6wAct] = .ok [] →
      ([] : List Xml).length =
        ([c6wAct].filter fun a2 : Activity => 2 ≤ a2.path.length).length) ∧
    (dateFolder "D" [c6wVisit] [c6wAct] = .ok c6wFolder →
      ((c6wFolder.children.any (isNamedFolder "Places Visited") = true) ↔
        [c6wVisit] ≠ []) ∧
      ((c6wFolder.children.any (isNamedFolder "Activities") = true) ↔ [c6wAct] ≠ [])) ∧
    (c6wAct.path = [(.num 1, .num 2)] → c6wAct.type = .str "WALKING" →
      (∃ pr, activityFeature tdNone c6wAct =
        .ok (.activityF (.point (.num 2) (.num 1)) pr)) ∧
      dateActivityPlacemarks "D" [c6wAct] = .ok []) :=
  c6_kml_activity_filter "D" [c6wAct] [c6wVisit] [] c6wFolder c6wAct
    (.num 1, .num 2) tdNone "WALKING"

/-- C6 (counterexample): the "Activities" subfolder is not omitted when it
contains no placemarks.  A date with one single-point activity yields a KML
document whose date folder carries an "Activities" subfolder containing zero
`Placemark` elements. -/
theorem c6_counterexample :
    to_kml tdNone "Timeline" ([], [c6wAct]) =
      .ok (.el "kml" [("xmlns", "http://www.opengis.net/kml/2.2")] none
        [.el "Document" [] none
          [.el "name" [] (some "Timeline Export - Timeline") [],
           styleXml "WALKING",
           visitStyleXml,
           .el "Folder" [] none
             [.el "name" [] (some "Unknown") [],
              .el "Folder" [] none [.el "name" [] (some "Activities") []]]]]) ∧
    isNamedFolder "Activities"
      (.el "Folder" [] none [.el "name" [] (some "Activities") []]) = true ∧
    Xml.childTagged (.el "Folder" [] none [.el "name" [] (some "Activities") []])
      "Placemark" = [] ∧
    c6wAct.path.length = 1 :=
  ⟨rfl, rfl, rfl, rfl⟩

/-! ## Activity templates of the standard and semantic schemas, and the
path-fallback characterization -/

/-- The fallback path the standard/semantic parsers build when fewer than
two primary points were recovered: the start coordinate, if present,
*replaces* the primary points; otherwise they are kept; then the end
coordinate, if present, is appended. -/
def fbPath (path0 : List (Json × Json)) (so eo : Option (ℚ × ℚ)) : List (Json × Json) :=
  (match so with
   | some c => [(.num c.1, .num c.2)]
   | none => path0)
  ++ (match eo with
      | some c => [(.num c.1, .num c.2)]
      | none => [])

/-- E7 scaling of a coordinate pair. -/
def scaleE7 (c : ℚ × ℚ) : ℚ × ℚ :=
  (c.1 / 10000000, c.2 / 10000000)

/-- An optional `startLocation`/`endLocation` entry with E7 fields. -/
def optLoc (k : String) (o : Option (ℚ × ℚ)) : List (String × Json) :=
  match o with
  | some c => [(k, .obj [("latitudeE7", .num c.1), ("longitudeE7", .num c.2)])]
  | none => []

/-- The segment object of a standard activitySegment record: a
`timelinePath.points` primary source, optional start/end locations, and
explicit remaining fields. -/
def stdActSeg (pts : List Json) (so eo : Option (ℚ × ℚ)) (ty stT enT dist : Json) : Json :=
  .obj (
    [("duration", .obj [("startTimestamp", stT), ("endTimestamp", enT)]),
     ("timelinePath", .obj [("points", .arr pts)]),
     ("activityType", ty),
     ("distance", dist)]
    ++ optLoc "startLocation" so
    ++ optLoc "endLocation" eo)

/-- A standard activitySegment record. -/
def stdActRec (pts : List Json) (so eo : Option (ℚ × ℚ)) (ty stT enT dist : Json) : Json :=
  .obj [("activitySegment", stdActSeg pts so eo ty stT enT dist)]

/-- A semantic activity segment with explicit field values. -/
def semActRec (stT enT ty dist sLL eLL : Json) (tpPts : List Json) : Json :=
  .obj [("startTime", stT), ("endTime", enT),
        ("activity", .obj [("topCandidate", .obj [("type", ty)]),
          ("start", .obj [("latLng", sLL)]), ("end", .obj [("latLng", eLL)]),
          ("distanceMeters", dist)]),
        ("timelinePath", .arr tpPts)]

/-- On the template segment, the primary path source resolves to the
`timelinePath.points` array (an empty array when the list is empty, which
is the same value). -/
theorem stdPathData_actSeg (pts : List Json) (so eo : Option (ℚ × ℚ))
    (ty stT enT dist : Json) :
    stdPathData (stdActSeg pts so eo ty stT enT dist) = .ok (.arr pts) := by
  have harr : (if (!pts.isEmpty) = true then (.ok (.arr pts) : Except PyErr Json)
      else .ok (.arr [])) = .ok (.arr pts) := by
    cases pts with
    | nil => simp
    | cons x l => simp
  rcases so with _ | s0 <;> rcases eo with _ | e0 <;>
    simp only [stdActSeg, optLoc, stdPathData, Json.pyGet, jLookup, String.reduceEq,
      reduceIte, Option.getD, bindE_ok, Json.truthy, List.append_nil, List.nil_append,
      List.cons_append, harr] <;>
    simp

/-- On the template segment, the fallback step returns exactly `fbPath` of
the scaled optional endpoints when fewer than two primary points were
recovered (given that present endpoints scale to nonzero coordinates). -/
theorem stdFallback_actSeg (pts : List Json) (so eo : Option (ℚ × ℚ))
    (ty stT enT dist : Json) (path0 : List (Json × Json))
    (hso : ∀ c, so = some c → c.1 / 10000000 ≠ 0 ∧ c.2 / 10000000 ≠ 0)
    (heo : ∀ c, eo = some c → c.1 / 10000000 ≠ 0 ∧ c.2 / 10000000 ≠ 0) :
    stdFallback (stdActSeg pts so eo ty stT enT dist) path0 =
      .ok (if path0.length < 2 then fbPath path0 (so.map scaleE7) (eo.map scaleE7)
           else path0) := by
  by_cases hlen : path0.length < 2
  · rcases so with _ | s0
    · rcases eo with _ | e0
      · simp only [stdActSeg, optLoc, stdFallback, Json.pyGet, jLookup, pyDiv,
          String.reduceEq, reduceIte, Option.getD, bindE_ok, hlen, ite_true, fbPath,
          Option.map, scaleE7, List.append_nil, List.nil_append, List.cons_append]
        norm_num
      · obtain ⟨he1, he2⟩ := heo e0 rfl
        simp only [stdActSeg, optLoc, stdFallback, Json.pyGet, jLookup, pyDiv,
          String.reduceEq, reduceIte, Option.getD, bindE_ok, hlen, ite_true, fbPath,
          Option.map, scaleE7, List.append_nil, List.nil_append, List.cons_append]
        norm_num [he1, he2]
    · obtain ⟨hs1, hs2⟩ := hso s0 rfl
      rcases eo with _ | e0
      · simp only [stdActSeg, optLoc, stdFallback, Json.pyGet, jLookup, pyDiv,
          String.reduceEq, reduceIte, Option.getD, bindE_ok, hlen, ite_true, fbPath,
          Option.map, scaleE7, List.append_nil, List.nil_append, List.cons_append]
        norm_num [hs1, hs2]
      · obtain ⟨he1, he2⟩ := heo e0 rfl
        simp only [stdActSeg, optLoc, stdFallback, Json.pyGet, jLookup, pyDiv,
          String.reduceEq, reduceIte, Option.getD, bindE_ok, hlen, ite_true, fbPath,
          Option.map, scaleE7, List.append_nil, List.nil_append, List.cons_append]
        norm_num [hs1, hs2, he1, he2]
  · simp only [stdFallback, hlen, ite_false]

/-- Scalar-field lookups on the template segment. -/
theorem stdActSeg_get (pts : List Json) (so eo : Option (ℚ × ℚ))
    (ty stT enT dist : Json) :
    (stdActSeg pts so eo ty stT enT dist).pyGet "duration" (.obj []) =
      .ok (.obj [("startTimestamp", stT), ("endTimestamp", enT)]) ∧
    (stdActSeg pts so eo ty stT enT dist).pyGet "activityType" .null = .ok ty ∧
    (stdActSeg pts so eo ty stT enT dist).pyGet "distance" (.num 0) = .ok dist := by
  rcases so with _ | s0 <;> rcases eo with _ | e0 <;> exact ⟨rfl, rfl, rfl⟩

/-- The standard parser's activity branch on the template, characterized
through the primary-loop result and the optional (nonzero) start/end E7
coordinates. -/
theorem stdStep_activity (st : Model) (pts : List Json) (so eo : Option (ℚ × ℚ))
    (ty stT enT dist : Json) (path0 : List (Json × Json))
    (hty : ty.truthy = true)
    (hso : ∀ c, so = some c → c.1 / 10000000 ≠ 0 ∧ c.2 / 10000000 ≠ 0)
    (heo : ∀ c, eo = some c → c.1 / 10000000 ≠ 0 ∧ c.2 / 10000000 ≠ 0)
    (hpts : exFold stdPoint [] pts = .ok path0) :
    stdStep st (stdActRec pts so eo ty stT enT dist) =
      (if (if path0.length < 2 then fbPath path0 (so.map scaleE7) (eo.map scaleE7)
           else path0).isEmpty then .ok st
       else .ok (st.1, st.2 ++ [⟨ty, stT, enT, dist,
         if path0.length < 2 then fbPath path0 (so.map scaleE7) (eo.map scaleE7)
         else path0⟩])) := by
  obtain ⟨hdur, htyp, hdist⟩ := stdActSeg_get pts so eo ty stT enT dist
  have hpd := stdPathData_actSeg pts so eo ty stT enT dist
  have hfb := stdFallback_actSeg pts so eo ty stT enT dist path0 hso heo
  simp only [stdStep, stdActRec, Json.hasStr, Json.idx, jLookup, String.reduceEq,
    reduceIte, Option.isSome, bindE_ok, stdActivitySegment, hdur, hpd, Json.pyIter,
    hpts, hfb, stdActivityType, htyp, hdist, hty]
  simp only [Json.pyGet, jLookup, String.reduceEq, reduceIte, Option.getD, bindE_ok]
  simp

/-- The semantic parser's activity branch on the template, characterized
through the timeline-path loop result and the parsed start/end
coordinates. -/
theorem semStep_activity (st : Model) (stT enT ty dist sLL eLL : Json)
    (tpPts : List Json) (so eo : Option (ℚ × ℚ)) (path0 : List (Json × Json))
    (hsc : parse_latlng_string sLL = .ok so)
    (hec : parse_latlng_string eLL = .ok eo)
    (hpts : exFold semPathPoint [] tpPts = .ok path0) :
    semStep st (semActRec stT enT ty dist sLL eLL tpPts) =
      (if (if path0.length < 2 then fbPath path0 so eo else path0).isEmpty then .ok st
       else .ok (st.1, st.2 ++ [⟨ty, stT, enT, dist,
         if path0.length < 2 then fbPath path0 so eo else path0⟩])) := by
  have hne : ∀ (l : List (Json × Json)) (x : Json × Json), (l ++ [x]).isEmpty = false := by
    intro l x
    cases l <;> rfl
  rcases so with _ | s0 <;> rcases eo with _ | e0 <;>
    simp only [semStep, semActRec, semActivity, Json.pyGet, Json.idx, Json.hasStr,
      Json.pyIter, jLookup, bindE_ok, bindE_error, String.reduceEq, reduceIte,
      Option.getD, Option.isSome, hsc, hec, hpts, fbPath, List.append_nil,
      List.nil_append] <;>
    norm_num [hne]

/-- C7 (counterexample): when fewer than 2 primary points were recovered but
the segment's start coordinate is absent, the primary point is *kept* and
the end coordinate appended — the resulting path is not the claimed
two-point path built from the segment's own start and end coordinates.
Here the primary source gives one point (5, 5), the start location is
absent and the end location is (1, 2): the parser emits path
[(5, 5), (1, 2)], which is not the [(1, 2)] the claim predicts. -/
theorem c7_counterexample :
    parse_standard_format (stdDoc [.obj [("activitySegment", .obj [
        ("timelinePath", .obj [("points", .arr [.obj [("lat", .num 5), ("lng", .num 5)]])]),
        ("endLocation", .obj [("latitudeE7", .num 10000000), ("longitudeE7", .num 20000000)]),
        ("activityType", .str "WALKING"),
        ("duration", .obj [("startTimestamp", .str "S"), ("endTimestamp", .str "E")])])]]) =
      .ok ([], [⟨.str "WALKING", .str "S", .str "E", .num 0,
        [(.num 5, .num 5), (.num 1, .num 2)]⟩]) ∧
    ([(.num 5, .num 5), (.num 1, .num 2)] : List (Json × Json)) ≠ [(.num 1, .num 2)] := by
  constructor
  · have t5 : Json.truthy (.num 5) = true := by norm_num [Json.truthy]
    have hp : exFold stdPoint [] [.obj [("lat", .num 5), ("lng", .num 5)]] =
        .ok [(.num 5, .num 5)] := by
      simp only [exFold, stdPoint, Json.hasStr, Json.pyGet, jLookup, String.reduceEq,
        reduceIte, Option.getD, Option.isSome, Json.truthy, bindE_ok, bindE_error, t5]
      norm_num
    have hstep : stdStep ([], []) (.obj [("activitySegment", .obj [
        ("timelinePath", .obj [("points", .arr [.obj [("lat", .num 5), ("lng", .num 5)]])]),
        ("endLocation", .obj [("latitudeE7", .num 10000000), ("longitudeE7", .num 20000000)]),
        ("activityType", .str "WALKING"),
        ("duration", .obj [("startTimestamp", .str "S"), ("endTimestamp", .str "E")])])]) =
      .ok ([], [⟨.str "WALKING", .str "S", .str "E", .num 0,
        [(.num 5, .num 5), (.num 1, .num 2)]⟩]) := by
      simp only [stdStep, stdActivitySegment, stdPathData, stdFallback, stdActivityType,
        Json.pyGet, Json.pyIter, Json.hasStr, Json.idx, Json.idx0, jLookup, pyDiv,
        String.reduceEq, reduceIte, Option.getD, Option.isSome, Json.truthy,
        bindE_ok, bindE_error, t5]
      norm_num [hp, bindE_ok, bindE_error]
    rw [stdDoc_parse, exFold_cons, hstep]
    rfl
  · intro h
    have hlen := congrArg List.length h
    norm_num at hlen

/-- C7 (amended): the path fallback, for each schema.  Standard and
semantic: when fewer than 2 path points came from the primary source, the
start coordinate — if present — *replaces* the primary points, otherwise
they are kept, and the end coordinate — if present — is appended (so a
leftover primary point can survive alongside the end point); ios activities
have no primary source and always use the start/end pair, dropping an end
equal to the start; in every schema an activity whose resulting path is
empty is dropped, a nonempty path is emitted as-is. -/
theorem c7_path_fallback (st : Model) (pts tpPts : List Json)
    (so eo so2 eo2 sc ec : Option (ℚ × ℚ))
    (ty stT enT dist ty2 stT2 enT2 dist2 ty3 stT3 enT3 dist3 sLL eLL sj ej : Json)
    (path0 path02 : List (Json × Json))
    (hty : ty.truthy = true)
    (hso : ∀ c, so = some c → c.1 / 10000000 ≠ 0 ∧ c.2 / 10000000 ≠ 0)
    (heo : ∀ c, eo = some c → c.1 / 10000000 ≠ 0 ∧ c.2 / 10000000 ≠ 0)
    (hpts : exFold stdPoint [] pts = .ok path0)
    (hsc2 : parse_latlng_string sLL = .ok so2)
    (hec2 : parse_latlng_string eLL = .ok eo2)
    (hpts2 : exFold semPathPoint [] tpPts = .ok path02)
    (hsc3 : parse_geo_string sj = sc)
    (hec3 : parse_geo_string ej = ec) :
    stdStep st (stdActRec pts so eo ty stT enT dist) =
      (if (if path0.length < 2 then fbPath path0 (so.map scaleE7) (eo.map scaleE7)
           else path0).isEmpty then .ok st
       else .ok (st.1, st.2 ++ [⟨ty, stT, enT, dist,
         if path0.length < 2 then fbPath path0 (so.map scaleE7) (eo.map scaleE7)
         else path0⟩])) ∧
    semStep st (semActRec stT2 enT2 ty2 dist2 sLL eLL tpPts) =
      (if (if path02.length < 2 then fbPath path02 so2 eo2 else path02).isEmpty then .ok st
       else .ok (st.1, st.2 ++ [⟨ty2, stT2, enT2, dist2,
         if path02.length < 2 then fbPath path02 so2 eo2 else path02⟩])) ∧
    iosStep st (iosActivityRec stT3 enT3 ty3 sj ej dist3) =
      (if (iosPath2 sc ec).isEmpty then .ok st
       else .ok (st.1, st.2 ++ [⟨ty3, stT3, enT3, dist3, iosPath2 sc ec⟩])) :=
  ⟨stdStep_activity st pts so eo ty stT enT dist path0 hty hso heo hpts,
   semStep_activity st stT2 enT2 ty2 dist2 sLL eLL tpPts so2 eo2 path02 hsc2 hec2 hpts2,
   iosStep_activity st stT3 enT3 ty3 sj ej dist3 sc ec hsc3 hec3⟩

/-- Witness for `c7_path_fallback`: a one-point primary path with an absent
start and a present end (standard), an empty timeline path with parsed
start/end strings (semantic), and geo start/end strings (ios). -/
theorem c7_path_fallback_witness :
    stdStep ([], []) (stdActRec [.obj [("lat", .num 5), ("lng", .num 5)]] none
        (some (10000000, 20000000)) (.str "WALKING") (.str "S") (.str "E") (.num 0)) =
      (if (if ([(.num 5, .num 5)] : List (Json × Json)).length < 2 then
            fbPath [(.num 5, .num 5)] ((none : Option (ℚ × ℚ)).map scaleE7)
              ((some ((10000000 : ℚ), (20000000 : ℚ))).map scaleE7)
          else [(.num 5, .num 5)]).isEmpty then .ok (([], []) : Model)
       else .ok (([] : List Visit), [] ++ [⟨.str "WALKING", .str "S", .str "E", .num 0,
         if ([(.num 5, .num 5)] : List (Json × Json)).length < 2 then
           fbPath [(.num 5, .num 5)] ((none : Option (ℚ × ℚ)).map scaleE7)
             ((some ((10000000 : ℚ), (20000000 : ℚ))).map scaleE7)
         else [(.num 5, .num 5)]⟩])) ∧
    semStep ([], []) (semActRec (.str "S2") (.str "E2") (.str "WALK") (.num 1)
        (.str "1.5°, 2.5°") (.str "3.5°, 4.5°") []) =
      (if (if ([] : List (Json × Json)).length < 2 then
            fbPath [] (some (floatVal ⟨false, ['1'], ['5'], 0⟩, floatVal ⟨false, ['2'], ['5'], 0⟩))
              (some (floatVal ⟨false, ['3'], ['5'], 0⟩, floatVal ⟨false, ['4'], ['5'], 0⟩))
          else []).isEmpty then .ok (([], []) : Model)
       else .ok (([] : List Visit), [] ++ [⟨.str "WALK", .str "S2", .str "E2", .num 1,
         if ([] : List (Json × Json)).length < 2 then
           fbPath [] (some (floatVal ⟨false, ['1'], ['5'], 0⟩, floatVal ⟨false, ['2'], ['5'], 0⟩))
             (some (floatVal ⟨false, ['3'], ['5'], 0⟩, floatVal ⟨false, ['4'], ['5'], 0⟩))
         else []⟩])) ∧
    iosStep ([], []) (iosActivityRec (.str "S3") (.str "E3") (.str "RUNNING")
        (.str "geo:1.0,2.0") (.str "geo:3.0,4.0") (.num 2)) =
      (if (iosPath2 (some (floatVal ⟨false, ['1'], ['0'], 0⟩, floatVal ⟨false, ['2'], ['0'], 0⟩))
            (some (floatVal ⟨false, ['3'], ['0'], 0⟩, floatVal ⟨false, ['4'], ['0'], 0⟩))).isEmpty
        then .ok (([], []) : Model)
       else .ok (([] : List Visit), [] ++ [⟨.str "RUNNING", .str "S3", .str "E3", .num 2,
         iosPath2 (some (floatVal ⟨false, ['1'], ['0'], 0⟩, floatVal ⟨false, ['2'], ['0'], 0⟩))
           (some (floatVal ⟨false, ['3'], ['0'], 0⟩, floatVal ⟨false, ['4'], ['0'], 0⟩))⟩])) := by
  have hpts : exFold stdPoint [] [.obj [("lat", .num 5), ("lng", .num 5)]] =
      .ok [(.num 5, .num 5)] := by
    simp only [exFold, stdPoint, Json.hasStr, Json.pyGet, jLookup, String.reduceEq,
      reduceIte, Option.getD, Option.isSome, Json.truthy, bindE_ok, bindE_error]
    norm_num
  exact c7_path_fallback ([], []) [.obj [("lat", .num 5), ("lng", .num 5)]] []
    none (some (10000000, 20000000))
    (some (floatVal ⟨false, ['1'], ['5'], 0⟩, floatVal ⟨false, ['2'], ['5'], 0⟩))
    (some (floatVal ⟨false, ['3'], ['5'], 0⟩, floatVal ⟨false, ['4'], ['5'], 0⟩))
    (some (floatVal ⟨false, ['1'], ['0'], 0⟩, floatVal ⟨false, ['2'], ['0'], 0⟩))
    (some (floatVal ⟨false, ['3'], ['0'], 0⟩, floatVal ⟨false, ['4'], ['0'], 0⟩))
    (.str "WALKING") (.str "S") (.str "E") (.num 0)
    (.str "WALK") (.str "S2") (.str "E2") (.num 1)
    (.str "RUNNING") (.str "S3") (.str "E3") (.num 2)
    (.str "1.5°, 2.5°") (.str "3.5°, 4.5°") (.str "geo:1.0,2.0") (.str "geo:3.0,4.0")
    [(.num 5, .num 5)] []
    rfl (fun c h => nomatch h)
    (fun c h => by
      injection h with hc
      subst hc
      norm_num)
    hpts rfl rfl rfl rfl rfl

/-! ## Per-record recovery (visit and activity records) -/

/-- A standard activitySegment with no path points and no start/end
locations is skipped: no Activity is emitted and no error is raised. -/
theorem stdStep_activity_skip (st : Model) (ty stT enT dist : Json) :
    stdStep st (stdActRec [] none none ty stT enT dist) = .ok st := by
  obtain ⟨hdur, htyp, hdist⟩ := stdActSeg_get [] none none ty stT enT dist
  have hpd := stdPathData_actSeg [] none none ty stT enT dist
  have hfb := stdFallback_actSeg [] none none ty stT enT dist []
    (fun c h => nomatch h) (fun c h => nomatch h)
  simp only [stdStep, stdActRec, Json.hasStr, Json.idx, jLookup, String.reduceEq,
    reduceIte, Option.isSome, bindE_ok, stdActivitySegment, hdur, hpd, Json.pyIter,
    exFold, hfb, stdActivityType, htyp, hdist]
  simp [fbPath, Option.map]

/-- C1 (amended): a record from which no Visit or Activity can be built
because its coordinate values are rejected by the coordinate extraction —
an ios place location or activity start/end that `parse_geo_string`
rejects, a standard placeVisit whose scaled E7 coordinates are zero (in
particular absent) or an activitySegment with no path points and no
start/end locations, a semantic visit or activity whose `latLng` strings
the pattern match rejects — is skipped with no error and every later
record in the document is still processed.  (Records with fields of
unexpected JSON type are not covered: as `c1_counterexample` shows, they
abort the run with an uncaught error.) -/
theorem c1_malformed_record_skipped
    (pre rest pre2 rest2 pre3 rest3 pre4 rest4 pre5 rest5 pre6 rest6 : List Json)
    (stT enT name ploc pid sem stT2 enT2 name2 pid2 sem2 ll stT3 enT3 name3 pid3 sem3 : Json)
    (a b : ℚ)
    (stT4 enT4 ty4 sj4 ej4 dist4 ty5 stT5 enT5 dist5 stT6 enT6 ty6 dist6 sLL6 eLL6 : Json)
    (hgeo : parse_geo_string ploc = none)
    (he7 : a / 10000000 = 0 ∨ b / 10000000 = 0)
    (hll : parse_latlng_string ll = .ok none)
    (hsj4 : parse_geo_string sj4 = none)
    (hej4 : parse_geo_string ej4 = none)
    (hsLL6 : parse_latlng_string sLL6 = .ok none)
    (heLL6 : parse_latlng_string eLL6 = .ok none) :
    parse_ios_format (pre ++ iosVisitRec stT enT name ploc pid sem :: rest) =
      parse_ios_format (pre ++ rest) ∧
    parse_standard_format (stdDoc (pre2 ++
        stdVisitRec (.num a) (.num b) name2 pid2 sem2 stT2 enT2 :: rest2)) =
      parse_standard_format (stdDoc (pre2 ++ rest2)) ∧
    parse_semantic_format (semDoc (pre3 ++
        semVisitRec stT3 enT3 name3 ll pid3 sem3 :: rest3)) =
      parse_semantic_format (semDoc (pre3 ++ rest3)) ∧
    parse_ios_format (pre4 ++ iosActivityRec stT4 enT4 ty4 sj4 ej4 dist4 :: rest4) =
      parse_ios_format (pre4 ++ rest4) ∧
    parse_standard_format (stdDoc (pre5 ++
        stdActRec [] none none ty5 stT5 enT5 dist5 :: rest5)) =
      parse_standard_format (stdDoc (pre5 ++ rest5)) ∧
    parse_semantic_format (semDoc (pre6 ++
        semActRec stT6 enT6 ty6 dist6 sLL6 eLL6 [] :: rest6)) =
      parse_semantic_format (semDoc (pre6 ++ rest6)) := by
  have hskipI : ∀ st, iosStep st (iosActivityRec stT4 enT4 ty4 sj4 ej4 dist4) = .ok st := by
    intro st
    rw [iosStep_activity st stT4 enT4 ty4 sj4 ej4 dist4 none none hsj4 hej4]
    rfl
  have hskipM : ∀ st, semStep st (semActRec stT6 enT6 ty6 dist6 sLL6 eLL6 []) = .ok st := by
    intro st
    rw [semStep_activity st stT6 enT6 ty6 dist6 sLL6 eLL6 [] none none [] hsLL6 heLL6 rfl]
    norm_num [fbPath]
  refine ⟨?_, ?_, ?_, ?_, ?_, ?_⟩
  · exact exFold_skip_mid iosStep _
      (fun st => iosStep_visit_skip st stT enT name ploc pid sem hgeo) pre rest ([], [])
  · rw [stdDoc_parse, stdDoc_parse]
    exact exFold_skip_mid stdStep _
      (fun st => stdStep_visit_skip st a b name2 pid2 sem2 stT2 enT2 he7) pre2 rest2 ([], [])
  · rw [semDoc_parse, semDoc_parse]
    exact exFold_skip_mid semStep _
      (fun st => semStep_visit_skip st stT3 enT3 name3 ll pid3 sem3 hll) pre3 rest3 ([], [])
  · exact exFold_skip_mid iosStep _ hskipI pre4 rest4 ([], [])
  · rw [stdDoc_parse, stdDoc_parse]
    exact exFold_skip_mid stdStep _
      (fun st => stdStep_activity_skip st ty5 stT5 enT5 dist5) pre5 rest5 ([], [])
  · rw [semDoc_parse, semDoc_parse]
    exact exFold_skip_mid semStep _ hskipM pre6 rest6 ([], [])

/-- Witness for `c1_malformed_record_skipped` at concrete malformed visit
and activity records in each schema. -/
theorem c1_malformed_record_skipped_witness :
    parse_ios_format ([] ++ iosVisitRec (.str "T0") (.str "T1") (.str "Cafe")
        (.str "geo:bad") .null .null ::
        [iosVisitRec (.str "T0") (.str "T1") (.str "Cafe") (.str "geo:1.0,2.0") .null .null]) =
      parse_ios_format ([] ++
        [iosVisitRec (.str "T0") (.str "T1") (.str "Cafe") (.str "geo:1.0,2.0") .null .null]) ∧
    parse_standard_format (stdDoc ([] ++
        stdVisitRec (.num 0) (.num 200000000) (.str "N") .null (.str "")
          (.str "S") (.str "E") ::
        [stdVisitRec (.num 100000000) (.num 200000000) (.str "X") .null (.str "")
          (.str "S") (.str "E")])) =
      parse_standard_format (stdDoc ([] ++
        [stdVisitRec (.num 100000000) (.num 200000000) (.str "X") .null (.str "")
          (.str "S") (.str "E")])) ∧
    parse_semantic_format (semDoc ([] ++
        semVisitRec (.str "S") (.str "E") (.str "N") (.str "hello") .null (.str "") ::
        [semVisitRec (.str "S") (.str "E") (.str "N") (.str "1.5°, 2.5°") .null (.str "")])) =
      parse_semantic_format (semDoc ([] ++
        [semVisitRec (.str "S") (.str "E") (.str "N") (.str "1.5°, 2.5°") .null (.str "")])) ∧
    parse_ios_format ([] ++ iosActivityRec (.str "A0") (.str "A1") (.str "WALKING")
        (.str "geo:bad") (.str "nope") (.num 1) :: []) =
      parse_ios_format ([] ++ []) ∧
    parse_standard_format (stdDoc ([] ++
        stdActRec [] none none (.str "WALKING") (.str "S5") (.str "E5") (.num 0) :: [])) =
      parse_standard_format (stdDoc ([] ++ [])) ∧
    parse_semantic_format (semDoc ([] ++
        semActRec (.str "S6") (.str "E6") (.str "WALK") (.num 2) (.str "hello")
          (.str "bye") [] :: [])) =
      parse_semantic_format (semDoc ([] ++ [])) :=
  c1_malformed_record_skipped []
    [iosVisitRec (.str "T0") (.str "T1") (.str "Cafe") (.str "geo:1.0,2.0") .null .null]
    []
    [stdVisitRec (.num 100000000) (.num 200000000) (.str "X") .null (.str "")
      (.str "S") (.str "E")]
    []
    [semVisitRec (.str "S") (.str "E") (.str "N") (.str "1.5°, 2.5°") .null (.str "")]
    [] [] [] [] [] []
    (.str "T0") (.str "T1") (.str "Cafe") (.str "geo:bad") .null .null
    (.str "S") (.str "E") (.str "N") .null (.str "")
    (.str "hello") (.str "S") (.str "E") (.str "N") .null (.str "")
    0 200000000
    (.str "A0") (.str "A1") (.str "WALKING") (.str "geo:bad") (.str "nope") (.num 1)
    (.str "WALKING") (.str "S5") (.str "E5") (.num 0)
    (.str "S6") (.str "E6") (.str "WALK") (.num 2) (.str "hello") (.str "bye")
    rfl (Or.inl (by norm_num)) rfl rfl rfl rfl rfl

end TC
